import Mathlib

/-!
Verification development for the airtook_video telemedicine bolt-on.

We shallowly embed the Python module `airtook_video/api.py` (and the parts
of `daily.py` it calls) into Lean.  Persistence, identity and the remote
Daily.co room provider are modelled as an explicit environment record
`Env` of oracles; time is an abstract integer instant and `add_to_date`
with a minute offset is integer addition.  Python exceptions raised via
`frappe.throw` become `Except Err` results; direct field writes
(`db_set` / `save`) are immediate state mutations which survive a later
throw, matching the persistence reading of the specification, so every
operation returns its `Except` result together with the possibly-mutated
session record.
-/

namespace AirtookVideo

/-- Error taxonomy: `frappe.throw` defaults to a validation error; an
explicit `frappe.PermissionError` argument gives a permission error; a
`frappe.get_doc` of an unknown record raises does-not-exist. -/
inductive Err where
  | validation (msg : String)
  | permission (msg : String)
  | notFoundDoc (doctype : String)
deriving DecidableEq, Repr

/-- Python `str.strip()`: drop leading and trailing whitespace. -/
def pyStrip (s : String) : String :=
  ⟨((s.data.dropWhile Char.isWhitespace).reverse.dropWhile Char.isWhitespace).reverse⟩

/-- Python `a.startswith(b)` as exact character comparison. -/
def pyPrefix (p s : String) : Bool :=
  p.data.isPrefixOf s.data

/-- Python `str.lower()` (ASCII view). -/
def pyLower (s : String) : String :=
  ⟨s.data.map Char.toLower⟩

/-- Python truthiness of an optional string: `None` and the empty string
are falsy. -/
def tstr : Option String → Bool
  | none => false
  | some s => !(s == "")

/-- The Video Consultation Session document, with the fields the API
reads and writes.  Datetimes are abstract integer instants. -/
structure Session where
  name : String
  session_type : String
  status : String
  patient_appointment : Option String
  patient : Option String
  patient_user : Option String
  booked_by : String
  allow_magic_link : Bool
  practitioner : Option String
  department : Option String
  daily_room_name : Option String
  daily_room_url : Option String
  patient_join_key : Option String
  patient_join_key_expires_at : Option Int
  started_at : Option Int
  ended_at : Option Int
  practitioner_rating : Option Int
  practitioner_rating_comment : Option String
deriving DecidableEq, Repr

/-- A Patient Appointment document, with the fields the API reads. -/
structure Appt where
  patient : Option String
  department : Option String
  practitioner : Option String
  airtook_video_session : Option String
  appointment_date : Option String
  appointment_time : Option String
  duration : Option Int
deriving DecidableEq, Repr

/-- Outcome of the remote `GET /rooms/<name>` call, as the Daily API can
answer it: a room object, a 404, or some other non-success response. -/
inductive GetRoomOutcome where
  | found (name : Option String) (url : Option String)
  | notFound
  | serverError (msg : String)
deriving DecidableEq, Repr

/-- Outcome of the remote `POST /rooms` call: a room object, a 409 name
conflict, or some other non-success response. -/
inductive CreateRoomOutcome where
  | ok (name : Option String) (url : Option String)
  | conflict
  | serverError (msg : String)
deriving DecidableEq, Repr

/-- The remote meeting token, identified by the request that produced it:
room name, owner flag and the identity baked into the token. -/
structure MeetingToken where
  room_name : String
  is_owner : Bool
  user_id : String
deriving DecidableEq, Repr

/-- The ambient environment: the generic record store, the identity
context, the clock, entropy, and the remote room provider, all treated
as oracles. -/
structure Env where
  /-- Registered User ids (`frappe.db.exists "User"`). -/
  users : List String
  /-- Medical Department names, in the order `frappe.get_all` returns them. -/
  departments : List String
  /-- Healthcare Practitioner name to its linked `user_id`. -/
  practitioner_user : String → Option String
  /-- Patient record name to its linked `user_id`. -/
  patient_user_of : String → Option String
  /-- Patient Appointment lookup. -/
  appts : String → Option Appt
  /-- Active practitioners of a department, `(name, user_id)` pairs already
  filtered and ordered by the store (most recently modified first). -/
  practitioners_of : String → List (String × Option String)
  /-- `frappe.session.user`; the string Guest for anonymous callers. -/
  current_user : String
  /-- `now_datetime()`, one instant for the whole call. -/
  now : Int
  /-- Display name formatting (`get_fullname` fallback chain). -/
  display_name : String → String
  /-- Entropy for `_generate_join_key`. -/
  fresh_key : String
  /-- Entropy for `_room_name` (the part after the prefix). -/
  fresh_room : String
  /-- Name frappe assigns to a freshly inserted session document. -/
  fresh_session_name : String
  /-- `get_url()` site base. -/
  base_url : String
  /-- `frappe.utils.get_datetime` applied to the appointment date and time
  strings, as an abstract instant. -/
  appointment_start : String → String → Int
  /-- Whether Patient Appointment has the back-reference column. -/
  has_link_col : Bool
  /-- Remote room lookup oracle. -/
  get_room : String → GetRoomOutcome
  /-- Remote room creation oracle. -/
  create_room : String → CreateRoomOutcome
  /-- Remote meeting-token oracle: whether the token request succeeds. -/
  token_ok : String → Bool → String → Bool
  /-- Result of `airtook_core.api.submit_doctor_rating`: `none` means it
  returned normally, `some e` means it raised with message `e`. -/
  forward_result : String → Int → String → String → String → Option String

/-- `_is_expired`: falsy datetime counts as expired, otherwise compare
with the current time. -/
def isExpired (env : Env) : Option Int → Bool
  | none => true
  | some d => env.now > d

/-- `_room_name`: prefix plus fresh entropy. -/
def roomName (env : Env) (pre : String) : String :=
  pre ++ "-" ++ env.fresh_room

/-- `_get_practitioner_user`. -/
def getPractitionerUser (env : Env) (practitioner_name : Option String) : Option String :=
  match practitioner_name with
  | none => none
  | some p => if p == "" then none else env.practitioner_user p

/-- `_patient_user_from_patient`. -/
def patientUserFromPatient (env : Env) (patient_name : Option String) : Option String :=
  match patient_name with
  | none => none
  | some p => if p == "" then none else env.patient_user_of p

/-- `_require_valid_user`. -/
def requireValidUser (env : Env) (user_id : Option String) : Except Err Unit :=
  match user_id with
  | none => .error (.validation "Invalid patient user")
  | some u =>
    if u == "" || !(env.users.contains u) then
      .error (.validation "Invalid patient user")
    else .ok ()

/-- `_resolve_department`: exact match on the stripped input wins, then an
in-memory prefix scan over all department names; one match resolves, many
are ambiguous, none is unknown. -/
def resolveDepartment (env : Env) (dept : Option String) : Except Err (Option String) :=
  match dept with
  | none => .ok none
  | some d0 =>
    if d0 == "" then .ok none
    else
      let d := pyStrip d0
      if env.departments.contains d then .ok (some d)
      else
        let ms := env.departments.filter (fun n => pyPrefix d n)
        match ms with
        | [m] => .ok (some m)
        | [] => .error (.validation ("Unknown Medical Department: " ++ d))
        | _ => .error (.validation ("Ambiguous Medical Department: " ++ d ++ ". Matches: " ++ toString ms))

/-- `_pick_practitioner`: first active practitioner of the department that
has a linked identity. -/
def pickPractitioner (env : Env) (dept : Option String) : Option String :=
  match dept with
  | none => none
  | some d =>
    if d == "" then none
    else
      match (env.practitioners_of d).find? (fun r => tstr r.2) with
      | some r => some r.1
      | none => none

/-- Python `x or y` on an optional string result: keep `x` when truthy,
else fall back. -/
def orStr (x : Option String) (y : String) : String :=
  match x with
  | some s => if s == "" then y else s
  | none => y

/-- `daily_get_room`: any non-success HTTP response raises. -/
def daily_get_room (env : Env) (room : String) :
    Except Err (Option String × Option String) :=
  match env.get_room room with
  | .found n u => .ok (n, u)
  | .notFound => .error (.validation "Daily get room failed: 404")
  | .serverError m => .error (.validation ("Daily get room failed: " ++ m))

/-- `daily_create_room`: a 409 name conflict is resolved by fetching the
existing room; any other non-success response raises. -/
def daily_create_room (env : Env) (room : String) :
    Except Err (Option String × Option String) :=
  match env.create_room room with
  | .ok n u => .ok (n, u)
  | .conflict =>
    match env.get_room room with
    | .found n u => .ok (n, u)
    | .notFound => .error (.validation "Daily get room failed: 404")
    | .serverError m => .error (.validation ("Daily get room failed: " ++ m))
  | .serverError m => .error (.validation ("Daily create room failed: " ++ m))

/-- `daily_create_meeting_token`: the issued token is identified by its
request; a failed remote call raises. -/
def daily_create_meeting_token (env : Env) (room : String) (owner : Bool) (uid : String) :
    Except Err MeetingToken :=
  if env.token_ok room owner uid then .ok ⟨room, owner, uid⟩
  else .error (.validation "Daily create token failed")

/-- `_get_appt_datetime_and_duration`: start instant (when both date and
time are present) and duration with its default of 30 minutes. -/
def getApptDatetimeAndDuration (env : Env) (pa : String) :
    Except Err (Option Int × Int) :=
  match env.appts pa with
  | none => .error (.notFoundDoc "Patient Appointment")
  | some appt =>
    let duration : Int := match appt.duration with
      | none => 30
      | some d => if d = 0 then 30 else d
    if tstr appt.appointment_date && tstr appt.appointment_time then
      .ok (some (env.appointment_start (appt.appointment_date.getD "")
                  (appt.appointment_time.getD "")), duration)
    else .ok (none, duration)

/-- The quick-consult fallthrough of `_compute_access_window`. -/
def quickWindow (env : Env) (doc : Session) : Option Int × Option Int × String :=
  match doc.ended_at with
  | some e => (some (e - 10000), some (e + 60), "quick")
  | none => (some (env.now - 10000), none, "quick")

/-- `_compute_access_window`: `(open_from, close_at, kind)`. -/
def computeAccessWindow (env : Env) (doc : Session) :
    Except Err (Option Int × Option Int × String) :=
  if tstr doc.patient_appointment then
    match getApptDatetimeAndDuration env (doc.patient_appointment.getD "") with
    | .error e => .error e
    | .ok (some start, duration) =>
      .ok (some (start - 10), some (start + (duration + 60)), "scheduled")
    | .ok (none, _) => .ok (quickWindow env doc)
  else .ok (quickWindow env doc)

/-- The access-window gates of `get_join_info`: too-early denial for
scheduled sessions, close-bound denial with the Ended transition, and the
hard close for already-Ended sessions. -/
def accessGate (env : Env) (doc : Session) : Except Err Unit × Session :=
  match computeAccessWindow env doc with
  | .error e => (.error e, doc)
  | .ok (open_from, close_at, kind) =>
    if kind = "scheduled" && open_from.isSome && decide (env.now < open_from.getD 0) then
      (.error (.validation "Please join within 10 minutes of your appointment time."), doc)
    else if close_at.isSome && decide (env.now > close_at.getD 0) then
      let doc' := if doc.status ≠ "Ended" then
          { doc with status := "Ended",
                     ended_at := if doc.ended_at.isSome then doc.ended_at else some env.now }
        else doc
      (.error (.validation "This session has expired. Please book a new appointment."), doc')
    else if doc.status = "Ended" && doc.ended_at.isSome
            && decide (env.now > doc.ended_at.getD 0 + 60) then
      (.error (.validation "This session has expired. Please book a new appointment."), doc)
    else (.ok (), doc)

/-- Role, token identity and display name resolved for the caller. -/
structure RoleInfo where
  role : String
  token_user : String
  display : String
deriving DecidableEq, Repr

/-- The caller-resolution part of `get_join_info`: practitioner owner,
magic-link guest (burning the single-use key), or authenticated patient. -/
def resolveCaller (env : Env) (doc : Session) (k : Option String) :
    Except Err RoleInfo × Session :=
  let current := env.current_user
  let is_guest := current = "Guest"
  let pu := if tstr doc.practitioner then getPractitionerUser env doc.practitioner else none
  let is_owner := !is_guest && tstr pu && (pu == some current)
  if is_owner then
    let d := env.display_name current
    let d := if !(d == "") && !(pyPrefix "dr" (pyLower d)) then "Dr. " ++ d else d
    (.ok ⟨"practitioner", current, d⟩, doc)
  else
    if is_guest then
      if !tstr k then
        (.error (.validation "Login required (missing join key)"), doc)
      else if !doc.allow_magic_link then
        (.error (.validation "Magic link access is disabled for this consultation"), doc)
      else if !tstr doc.patient_join_key || doc.patient_join_key_expires_at.isNone then
        (.error (.validation "This join link is not enabled"), doc)
      else if k != doc.patient_join_key then
        (.error (.validation "Invalid join key"), doc)
      else if isExpired env doc.patient_join_key_expires_at then
        (.error (.validation "Join link expired"), doc)
      else
        let doc' := { doc with patient_join_key := none, patient_join_key_expires_at := none }
        (.ok ⟨"patient", doc.patient_user.getD "", env.display_name (doc.patient_user.getD "")⟩, doc')
    else
      let patient_mismatch :=
        if tstr doc.patient then
          let pid := patientUserFromPatient env doc.patient
          tstr pid && (pid != some current)
        else false
      if patient_mismatch then
        (.error (.validation "Not permitted"), doc)
      else if tstr doc.patient_user && (doc.patient_user != some current) then
        (.error (.validation "Not permitted"), doc)
      else
        (.ok ⟨"patient", current, env.display_name current⟩, doc)

/-- The room self-healing step of `get_join_info`: any lookup failure or
missing URL yields no usable URL; a non-Ended session is repaired with a
fresh room and the binding persisted; the Boolean reports whether a
replacement room was allocated. -/
def ensureRoom (env : Env) (doc : Session) :
    Except Err (Option String) × Session × Bool :=
  let room_url : Option String :=
    match env.get_room (doc.daily_room_name.getD "") with
    | .found _ u => u
    | _ => none
  if tstr room_url then (.ok room_url, doc, false)
  else if doc.status = "Ended" then
    (.error (.validation "This consultation session has ended."), doc, false)
  else
    let new_room_name := roomName env "airtook"
    match daily_create_room env new_room_name with
    | .error e => (.error e, doc, false)
    | .ok (n, u) =>
      let doc' := { doc with daily_room_name := some (orStr n new_room_name),
                             daily_room_url := u }
      (.ok doc'.daily_room_url, doc', true)

/-- The lifecycle advance at the end of `get_join_info`: Draft/Scheduled
collapse to Waiting, then Waiting enters Active, setting `started_at` only
when it was unset before. -/
def advanceLifecycle (env : Env) (doc : Session) : Session :=
  let d1 := if doc.status = "Draft" || doc.status = "Scheduled" then
      { doc with status := "Waiting" }
    else doc
  if d1.status = "Waiting" then
    { d1 with status := "Active",
              started_at := if d1.started_at.isSome then d1.started_at else some env.now }
  else d1

/-- The payload returned by `get_join_info`. -/
structure JoinInfo where
  session_id : String
  room_name : Option String
  room_url : Option String
  token : MeetingToken
  role : String
  practitioner : Option String
  display_name : String
  patient_user : Option String
deriving DecidableEq, Repr

/-- `get_join_info` on a fetched session document. -/
def get_join_info_doc (env : Env) (doc : Session) (k : Option String) :
    Except Err JoinInfo × Session :=
  if !tstr doc.daily_room_name then
    (.error (.validation "Session has no Daily room assigned"), doc)
  else if !tstr doc.patient_user then
    (.error (.validation "Session is not linked to a patient account"), doc)
  else
    match resolveCaller env doc k with
    | (.error e, d) => (.error e, d)
    | (.ok rc, d) =>
      match accessGate env d with
      | (.error e, d2) => (.error e, d2)
      | (.ok _, d2) =>
        match ensureRoom env d2 with
        | (.error e, d3, _) => (.error e, d3)
        | (.ok room_url, d3, _) =>
          match daily_create_meeting_token env (d3.daily_room_name.getD "")
                  (rc.role = "practitioner") rc.token_user with
          | .error e => (.error e, d3)
          | .ok token =>
            let d4 := advanceLifecycle env d3
            (.ok ⟨d4.name, d4.daily_room_name, room_url, token, rc.role,
                  d4.practitioner, rc.display, d4.patient_user⟩, d4)

/-- The payload returned by `end_session`. -/
structure EndOut where
  session_id : String
  status : String
deriving DecidableEq, Repr

/-- `end_session` on a fetched session document: practitioner-only,
idempotent termination. -/
def end_session_doc (env : Env) (doc : Session) : Except Err EndOut × Session :=
  if env.current_user = "Guest" then (.error (.permission "Login required"), doc)
  else
    let pu := if tstr doc.practitioner then getPractitionerUser env doc.practitioner else none
    if !tstr pu || (pu != some env.current_user) then
      (.error (.permission "Not permitted"), doc)
    else if doc.status ≠ "Ended" then
      let doc' := { doc with status := "Ended",
                             ended_at := if doc.ended_at.isSome then doc.ended_at else some env.now }
      (.ok ⟨doc'.name, "Ended"⟩, doc')
    else (.ok ⟨doc.name, "Ended"⟩, doc)

/-- The payload returned by `submit_rating`. -/
structure RatingOut where
  session_id : String
  rating : Int
  rated_by_role : String
  warning : Option String
deriving DecidableEq, Repr

/-- The arguments of a forwarded `submit_doctor_rating` call. -/
structure ForwardCall where
  doctor : String
  rating : Int
  patient_user : String
  session : String
  comment : String
deriving DecidableEq, Repr

/-- `submit_rating` on a fetched session document.  `rating_in = none`
models a rating argument that `int()` cannot parse.  The third component
records whether (and with what arguments) the rating was forwarded to the
external rating subsystem. -/
def submit_rating_doc (env : Env) (doc : Session) (rating_in : Option Int)
    (comment : Option String) : Except Err RatingOut × Session × Option ForwardCall :=
  if env.current_user = "Guest" then
    (.error (.permission "Login required"), doc, none)
  else
    match rating_in with
    | none => (.error (.validation "Rating must be an integer between 1 and 5"), doc, none)
    | some rating =>
      if rating < 1 || 5 < rating then
        (.error (.validation "Rating must be between 1 and 5"), doc, none)
      else
        let pu := if tstr doc.practitioner then getPractitionerUser env doc.practitioner else none
        let is_practitioner := tstr pu && (pu == some env.current_user)
        let is_patient := tstr doc.patient_user && (doc.patient_user == some env.current_user)
        if !is_practitioner && !is_patient then
          (.error (.permission "Not permitted to rate this session"), doc, none)
        else if is_patient then
          if tstr doc.practitioner then
            let call : ForwardCall :=
              ⟨doc.practitioner.getD "", rating, env.current_user, doc.name, comment.getD ""⟩
            match env.forward_result call.doctor call.rating call.patient_user
                    call.session call.comment with
            | some e => (.ok ⟨doc.name, rating, "patient", some e⟩, doc, some call)
            | none =>
              (.ok ⟨doc.name, rating,
                    if is_practitioner then "practitioner" else "patient", none⟩, doc, some call)
          else
            (.ok ⟨doc.name, rating,
                  if is_practitioner then "practitioner" else "patient", none⟩, doc, none)
        else
          let doc' := { doc with
            practitioner_rating := some rating,
            practitioner_rating_comment :=
              if tstr comment then comment else doc.practitioner_rating_comment }
          (.ok ⟨doc.name, rating, "practitioner", none⟩, doc', none)

/-- The mutable record store relevant to this subsystem: the session
documents plus the `airtook_video_session` back-references written onto
appointments. -/
structure St where
  sessions : List Session
  appt_links : List (String × String)
deriving DecidableEq, Repr

/-- `frappe.db.exists` / `frappe.get_doc` for sessions. -/
def findSession (st : St) (name : String) : Option Session :=
  st.sessions.find? (fun s => s.name == name)

/-- Replace the session with the given name. -/
def updateSessions (ss : List Session) (name : String) (d : Session) : List Session :=
  ss.map (fun s => if s.name == name then d else s)

/-- The payload returned by `create_session`. -/
structure CreatePayload where
  session_id : String
  session_type : String
  status : String
  department : Option String
  practitioner : Option String
  room_name : Option String
  room_url : Option String
  patient_user : Option String
  booked_by : String
  allow_magic_link : Bool
  patient_join_url : Option String
  patient_join_expires_at : Option Int
deriving DecidableEq, Repr

/-- The payload `create_session` builds for an already-linked session on
the idempotent re-booking path. -/
def payloadOfExisting (env : Env) (s : Session) : CreatePayload :=
  { session_id := s.name
    session_type := s.session_type
    status := s.status
    department := s.department
    practitioner := s.practitioner
    room_name := s.daily_room_name
    room_url := s.daily_room_url
    patient_user := s.patient_user
    booked_by := s.booked_by
    allow_magic_link := s.allow_magic_link
    patient_join_url :=
      if s.allow_magic_link && tstr s.patient_join_key then
        some (env.base_url ++ "/video/" ++ s.name ++ "?k=" ++ s.patient_join_key.getD "")
      else none
    patient_join_expires_at :=
      if s.allow_magic_link && tstr s.patient_join_key then
        s.patient_join_key_expires_at
      else none }

/-- The patient-identity priority chain of `create_session`:
appointment-linked patient identity, then the explicit argument, then the
caller. -/
def finalPatientUser (env : Env) (patient : Option String) (patient_user : Option String) :
    Option String :=
  let appt_patient_user := if tstr patient then patientUserFromPatient env patient else none
  if tstr appt_patient_user then appt_patient_user
  else if tstr patient_user then patient_user
  else some env.current_user

/-- The tail of `create_session` after the idempotent re-booking check:
department resolution, practitioner selection, patient identity binding,
room allocation, insertion, appointment link-back and magic-link setup. -/
def createRest (env : Env) (st : St) (patient_appointment : Option String)
    (session_type : String) (patient dept0 prac0 patient_user : Option String)
    (allow_magic_link : String) : Except Err CreatePayload × St :=
  match resolveDepartment env dept0 with
  | .error e => (.error e, st)
  | .ok none => (.error (.validation "Department is required"), st)
  | .ok (some dept) =>
    let prac := if tstr prac0 then prac0 else pickPractitioner env (some dept)
    let fpu := finalPatientUser env patient patient_user
    match requireValidUser env fpu with
    | .error e => (.error e, st)
    | .ok _ =>
      let allow_magic := ["1", "true", "True", "yes", "on"].contains allow_magic_link
      let rn := roomName env "airtook"
      match daily_create_room env rn with
      | .error e => (.error e, st)
      | .ok (n, u) =>
        let doc : Session :=
          { name := env.fresh_session_name
            session_type := session_type
            status := "Waiting"
            patient_appointment := patient_appointment
            patient := patient
            patient_user := fpu
            booked_by := env.current_user
            allow_magic_link := allow_magic
            practitioner := prac
            department := some dept
            daily_room_name := some (orStr n rn)
            daily_room_url := u
            patient_join_key := none
            patient_join_key_expires_at := none
            started_at := none
            ended_at := none
            practitioner_rating := none
            practitioner_rating_comment := none }
        let st1 : St := { st with sessions := st.sessions ++ [doc] }
        let st2 : St :=
          if tstr patient_appointment && env.has_link_col then
            { st1 with appt_links := st1.appt_links ++ [(patient_appointment.getD "", doc.name)] }
          else st1
        let doc2 : Session :=
          if allow_magic then
            { doc with patient_join_key := some env.fresh_key,
                       patient_join_key_expires_at := some (env.now + 60) }
          else doc
        let st3 : St :=
          if allow_magic then { st2 with sessions := updateSessions st2.sessions doc.name doc2 }
          else st2
        let payload : CreatePayload :=
          { session_id := doc2.name
            session_type := doc2.session_type
            status := doc2.status
            department := doc2.department
            practitioner := doc2.practitioner
            room_name := doc2.daily_room_name
            room_url := doc2.daily_room_url
            patient_user := doc2.patient_user
            booked_by := doc2.booked_by
            allow_magic_link := doc2.allow_magic_link
            patient_join_url :=
              if allow_magic then
                some (env.base_url ++ "/video/" ++ doc2.name ++ "?k=" ++ env.fresh_key)
              else none
            patient_join_expires_at :=
              if allow_magic then some (env.now + 60) else none }
        (.ok payload, st3)

/-- `create_session`: login check, idempotent re-booking for an
appointment that already links an existing session, otherwise derivation
of patient, department and practitioner from the appointment followed by
`createRest`. -/
def create_session (env : Env) (st : St)
    (patient_appointment department practitioner patient_user : Option String)
    (allow_magic_link : String) : Except Err CreatePayload × St :=
  if env.current_user = "Guest" then (.error (.permission "Login required"), st)
  else
    let session_type := if tstr patient_appointment then "Scheduled" else "Quick Consult"
    if tstr patient_appointment then
      match env.appts (patient_appointment.getD "") with
      | none => (.error (.notFoundDoc "Patient Appointment"), st)
      | some appt =>
        match (if tstr appt.airtook_video_session then
                findSession st (appt.airtook_video_session.getD "") else none) with
        | some existing => (.ok (payloadOfExisting env existing), st)
        | none =>
          let patient := appt.patient
          let dept := if tstr appt.department then appt.department
            else if tstr department then department else some "General Practice"
          let prac := if tstr practitioner then practitioner else appt.practitioner
          createRest env st patient_appointment session_type patient dept prac
            patient_user allow_magic_link
    else
      createRest env st patient_appointment session_type none department practitioner
        patient_user allow_magic_link

/-- One API call touching a given session document: a join-info call, an
end-session call, or a rating submission, each with its own ambient
environment. -/
inductive SessionOp where
  | join (env : Env) (k : Option String)
  | endSession (env : Env)
  | rate (env : Env) (rating : Option Int) (comment : Option String)

/-- The session document after one API call (mutations persist whether or
not the call succeeded). -/
def applyOp (doc : Session) : SessionOp → Session
  | .join env k => (get_join_info_doc env doc k).2
  | .endSession env => (end_session_doc env doc).2
  | .rate env r c => (submit_rating_doc env doc r c).2.1

/-- A session document threaded through any sequence of API calls. -/
def runOps (ops : List SessionOp) (doc : Session) : Session :=
  ops.foldl applyOp doc

/-! Concrete fixtures used to instantiate the theorems below. -/

/-- A scheduled appointment without a linked session. -/
def appt1 : Appt :=
  { patient := some "PAT-1"
    department := some "Nutrition"
    practitioner := some "HP-1"
    airtook_video_session := none
    appointment_date := some "2026-01-01"
    appointment_time := some "10:00"
    duration := some 20 }

/-- The same appointment carrying a back-reference to session VCS-1. -/
def apptLinked : Appt :=
  { appt1 with airtook_video_session := some "VCS-1" }

/-- An appointment with no start time recorded. -/
def apptNoTime : Appt :=
  { appt1 with appointment_time := none }

/-- An appointment with no duration recorded. -/
def apptNoDur : Appt :=
  { appt1 with duration := none }

/-- A small concrete environment. -/
def env0 : Env :=
  { users := ["alice@x", "bob@x", "doc@x"]
    departments := ["Cardiology", "General Practice", "General Surgery", "Nutrition"]
    practitioner_user := fun p => if p == "HP-1" then some "doc@x" else none
    patient_user_of := fun p => if p == "PAT-1" then some "alice@x" else none
    appts := fun a =>
      if a == "APPT-1" then some appt1
      else if a == "APPT-2" then some apptLinked
      else if a == "APPT-3" then some apptNoTime
      else if a == "APPT-4" then some apptNoDur
      else none
    practitioners_of := fun d => if d == "Nutrition" then [("HP-1", some "doc@x")] else []
    current_user := "alice@x"
    now := 1000
    display_name := fun u => u
    fresh_key := "KEY2"
    fresh_room := "r2"
    fresh_session_name := "VCS-2"
    base_url := "https://site"
    appointment_start := fun _ _ => 2000
    has_link_col := true
    get_room := fun _ => .found (some "airtook-r1") (some "https://d/r1")
    create_room := fun n => .ok (some n) (some ("https://d/" ++ n))
    token_ok := fun _ _ _ => true
    forward_result := fun _ _ _ _ _ => none }

/-- A quick-consult session with an unexpired magic-link key. -/
def doc0 : Session :=
  { name := "VCS-1"
    session_type := "Quick Consult"
    status := "Waiting"
    patient_appointment := none
    patient := none
    patient_user := some "alice@x"
    booked_by := "alice@x"
    allow_magic_link := true
    practitioner := some "HP-1"
    department := some "Nutrition"
    daily_room_name := some "airtook-r1"
    daily_room_url := some "https://d/r1"
    patient_join_key := some "KEY1"
    patient_join_key_expires_at := some 1500
    started_at := none
    ended_at := none
    practitioner_rating := none
    practitioner_rating_comment := none }

/-- A store holding only `doc0`. -/
def st0 : St := { sessions := [doc0], appt_links := [] }

/-- The payload `create_session` produces for a scheduled booking of
APPT-1 against `env0` and `st0`. -/
def cp4 : CreatePayload :=
  { session_id := "VCS-2"
    session_type := "Scheduled"
    status := "Waiting"
    department := some "Nutrition"
    practitioner := some "HP-1"
    room_name := some "airtook-r2"
    room_url := some "https://d/airtook-r2"
    patient_user := some "alice@x"
    booked_by := "alice@x"
    allow_magic_link := true
    patient_join_url := some "https://site/video/VCS-2?k=KEY2"
    patient_join_expires_at := some 1060 }

/-- The payload `create_session` produces for a quick consult in
Nutrition against `env0` and `st0`. -/
def cp5 : CreatePayload :=
  { cp4 with session_type := "Quick Consult" }

/-- The quick-consult session rebased onto the scheduled appointment. -/
def docS : Session :=
  { doc0 with patient_appointment := some "APPT-1" }

/-- The scheduled session after it has been ended. -/
def docSE : Session :=
  { docS with status := "Ended", ended_at := some 1000 }

/-- The guest-call environment. -/
def envG : Env := { env0 with current_user := "Guest" }

/-- The environment as seen by the practitioner HP-1. -/
def envD : Env := { env0 with current_user := "doc@x" }

/-- An environment whose remote room lookup fails with a non-404
server error. -/
def envX : Env := { env0 with get_room := fun _ => .serverError "500 internal" }

/-- A session whose patient identity is also the practitioner identity. -/
def docB : Session := { doc0 with patient_user := some "doc@x" }

/-- The session rebased onto the appointment with no start time. -/
def docQ : Session := { doc0 with patient_appointment := some "APPT-3" }

/-- The join payload the guest call against `doc0` with key KEY1
produces. -/
def jG : JoinInfo :=
  { session_id := "VCS-1"
    room_name := some "airtook-r1"
    room_url := some "https://d/r1"
    token := { room_name := "airtook-r1", is_owner := false, user_id := "alice@x" }
    role := "patient"
    practitioner := some "HP-1"
    display_name := "alice@x"
    patient_user := some "alice@x" }

end AirtookVideo

deriving instance DecidableEq for Except

namespace AirtookVideo

/-- C3: department resolution, stated on the stripped input.  Empty or
absent input resolves to no department; an exact match of the stripped
input against a canonical department identifier wins immediately;
otherwise exactly one prefix match (exact character comparison) resolves
to it, zero matches fail with a not-found validation error, and two or
more fail with an ambiguity error listing the candidates. -/
theorem C3_department_resolution (env : Env) (d : String) (hne : d ≠ "") :
    resolveDepartment env none = .ok none ∧
    resolveDepartment env (some "") = .ok none ∧
    (env.departments.contains (pyStrip d) = true →
      resolveDepartment env (some d) = .ok (some (pyStrip d))) ∧
    (env.departments.contains (pyStrip d) = false →
      ∀ m, env.departments.filter (fun n => pyPrefix (pyStrip d) n) = [m] →
        resolveDepartment env (some d) = .ok (some m)) ∧
    (env.departments.contains (pyStrip d) = false →
      env.departments.filter (fun n => pyPrefix (pyStrip d) n) = [] →
      resolveDepartment env (some d) =
        .error (.validation ("Unknown Medical Department: " ++ pyStrip d))) ∧
    (env.departments.contains (pyStrip d) = false →
      ∀ m1 m2 ms,
        env.departments.filter (fun n => pyPrefix (pyStrip d) n) = m1 :: m2 :: ms →
        resolveDepartment env (some d) =
          .error (.validation ("Ambiguous Medical Department: " ++ pyStrip d ++
            ". Matches: " ++ toString (m1 :: m2 :: ms)))) := by
  have hb : (d == "") = false := by simp [hne]
  refine ⟨rfl, rfl, ?_, ?_, ?_, ?_⟩
  · intro h
    simp at h
    simp [resolveDepartment, hb, h]
  · intro h m hm
    simp at h
    simp [resolveDepartment, hb, h, hm]
  · intro h hm
    simp at h
    simp [resolveDepartment, hb, h, hm]
  · intro h m1 m2 ms hm
    simp at h
    simp [resolveDepartment, hb, h, hm]

/-- C3 counterexample to the claim as stated: the input with a leading
space is not an exact match of any department identifier and is a prefix
of none of them, so the claim requires a not-found failure, yet the
resolver strips the input first and resolves it. -/
theorem C3_counterexample :
    env0.departments.contains " Cardiology" = false ∧
    env0.departments.filter (fun n => pyPrefix " Cardiology" n) = [] ∧
    resolveDepartment env0 (some " Cardiology") = .ok (some "Cardiology") :=
  ⟨by decide, by decide, by decide⟩

/-- C3 witness: the four resolution outcomes at concrete inputs. -/
theorem C3_department_resolution_witness :
    resolveDepartment env0 (some "Cardiology") = .ok (some (pyStrip "Cardiology")) ∧
    resolveDepartment env0 (some " Cardio") = .ok (some "Cardiology") ∧
    resolveDepartment env0 (some "Zzz") =
      .error (.validation ("Unknown Medical Department: " ++ pyStrip "Zzz")) ∧
    resolveDepartment env0 (some "Gen") =
      .error (.validation ("Ambiguous Medical Department: " ++ pyStrip "Gen" ++
        ". Matches: " ++ toString ("General Practice" :: "General Surgery" :: ([] : List String)))) :=
  ⟨(C3_department_resolution env0 "Cardiology" (by decide)).2.2.1 (by decide),
   (C3_department_resolution env0 " Cardio" (by decide)).2.2.2.1 (by decide) "Cardiology" (by decide),
   (C3_department_resolution env0 "Zzz" (by decide)).2.2.2.2.1 (by decide) (by decide),
   (C3_department_resolution env0 "Gen" (by decide)).2.2.2.2.2 (by decide)
     "General Practice" "General Surgery" [] (by decide)⟩

/-- C4: when the supplied appointment already links an existing session,
`create_session` returns that session's payload and leaves the store
untouched. -/
theorem C4_create_session_idempotent (env : Env) (st : St)
    (pa dept prac pu : Option String) (magic : String) (appt : Appt) (ex : Session)
    (hlogin : env.current_user ≠ "Guest")
    (hpa : tstr pa = true)
    (happt : env.appts (pa.getD "") = some appt)
    (hlink : tstr appt.airtook_video_session = true)
    (hex : findSession st (appt.airtook_video_session.getD "") = some ex) :
    create_session env st pa dept prac pu magic = (.ok (payloadOfExisting env ex), st) := by
  simp [create_session, hlogin, hpa, happt, hlink, hex]

/-- C4 witness: re-booking APPT-2, which links VCS-1, returns the VCS-1
payload and keeps the store as it was. -/
theorem C4_create_session_idempotent_witness :
    create_session env0 st0 (some "APPT-2") none none none "1" =
      (.ok (payloadOfExisting env0 doc0), st0) :=
  C4_create_session_idempotent env0 st0 (some "APPT-2") none none none "1" apptLinked doc0
    (by decide) (by decide) (by decide) (by decide) (by decide)

/-- A successful `_require_valid_user` check means the identity is truthy
and registered. -/
theorem requireValidUser_ok (env : Env) (x : Option String) (u : Unit)
    (h : requireValidUser env x = .ok u) :
    tstr x = true ∧ env.users.contains (x.getD "") = true := by
  cases x with
  | none => simp [requireValidUser] at h
  | some s =>
    simp only [requireValidUser] at h
    split at h
    · simp at h
    · rename_i hc
      simp at hc
      simp [tstr, hc.1, hc.2]

/-- A successful `createRest` binds `patient_user` to the priority chain
value, which is truthy and registered. -/
theorem createRest_ok_patient_user (env : Env) (st : St) (pa : Option String)
    (stype : String) (patient d0 p0 pu : Option String) (magic : String)
    (p : CreatePayload) (st' : St)
    (h : createRest env st pa stype patient d0 p0 pu magic = (.ok p, st')) :
    p.patient_user = finalPatientUser env patient pu ∧
    tstr (finalPatientUser env patient pu) = true ∧
    env.users.contains ((finalPatientUser env patient pu).getD "") = true := by
  unfold createRest at h
  rcases hres : resolveDepartment env d0 with e | od
  · simp [hres] at h
  · rw [hres] at h
    cases od with
    | none => simp at h
    | some dept =>
      simp only at h
      rcases hval : requireValidUser env (finalPatientUser env patient pu) with e | u
      · rw [hval] at h; simp at h
      · rw [hval] at h
        rcases hroom : daily_create_room env (roomName env "airtook") with e | nu
        · rw [hroom] at h; simp at h
        · rw [hroom] at h
          simp only [Prod.mk.injEq] at h
          obtain ⟨h1, h2⟩ := h
          obtain rfl : _ = p := Except.ok.inj h1
          have hv := requireValidUser_ok env _ u hval
          refine ⟨?_, hv.1, hv.2⟩
          split <;> rfl

/-- A failed `_require_valid_user` check aborts `createRest` with that
error once the department resolves. -/
theorem createRest_invalid_user (env : Env) (st : St) (pa : Option String)
    (stype : String) (patient d0 p0 pu : Option String) (magic : String)
    (dd : String) (e : Err)
    (hres : resolveDepartment env d0 = .ok (some dd))
    (hval : requireValidUser env (finalPatientUser env patient pu) = .error e) :
    createRest env st pa stype patient d0 p0 pu magic = (.error e, st) := by
  simp [createRest, hres, hval]

/-- Any successful `create_session` call over a well-formed store returns
a truthy `patient_user`. -/
theorem create_session_ok_nonnull (env : Env) (st : St)
    (pa dept prac pu : Option String) (magic : String) (p : CreatePayload) (st' : St)
    (hwf : ∀ s ∈ st.sessions, tstr s.patient_user = true)
    (h : create_session env st pa dept prac pu magic = (.ok p, st')) :
    tstr p.patient_user = true := by
  unfold create_session at h
  by_cases hg : env.current_user = "Guest"
  · simp [hg] at h
  · rw [if_neg hg] at h
    by_cases hpa : tstr pa = true
    · rw [if_pos hpa] at h
      rcases happt : env.appts (pa.getD "") with _ | appt
      · rw [happt] at h; simp at h
      · rw [happt] at h
        dsimp only at h
        by_cases hl : tstr appt.airtook_video_session = true
        · rw [if_pos hl] at h
          rcases hfind : findSession st (appt.airtook_video_session.getD "") with _ | ex
          · rw [hfind] at h
            have hc := createRest_ok_patient_user _ _ _ _ _ _ _ _ _ _ _ h
            rw [hc.1]; exact hc.2.1
          · rw [hfind] at h
            simp only [Prod.mk.injEq] at h
            obtain ⟨h1, _⟩ := h
            obtain rfl := Except.ok.inj h1
            unfold findSession at hfind
            exact hwf ex (List.mem_of_find?_eq_some hfind)
        · rw [if_neg hl] at h
          have hc := createRest_ok_patient_user _ _ _ _ _ _ _ _ _ _ _ h
          rw [hc.1]; exact hc.2.1
    · rw [if_neg hpa] at h
      have hc := createRest_ok_patient_user _ _ _ _ _ _ _ _ _ _ _ h
      rw [hc.1]; exact hc.2.1

/-- A falsy patient reference maps to no linked identity. -/
theorem patientUserFromPatient_falsy (env : Env) (patient : Option String)
    (h : tstr patient = false) : patientUserFromPatient env patient = none := by
  cases patient with
  | none => rfl
  | some s =>
    simp [tstr] at h
    simp [patientUserFromPatient, h]

/-- An absent string is falsy. -/
theorem tstr_none : tstr none = false := rfl

/-- C5: `patient_user` of a successfully created session is never null;
it is bound by priority to the identity linked from the patient record,
else the explicit `patient_user` argument, else the caller; an identity
that fails registration aborts creation with the validation error. -/
theorem C5_patient_user_priority :
    (∀ env : Env, ∀ patient pu : Option String,
      (tstr (patientUserFromPatient env patient) = true →
        finalPatientUser env patient pu = patientUserFromPatient env patient) ∧
      (tstr (patientUserFromPatient env patient) = false → tstr pu = true →
        finalPatientUser env patient pu = pu) ∧
      (tstr (patientUserFromPatient env patient) = false → tstr pu = false →
        finalPatientUser env patient pu = some env.current_user)) ∧
    (∀ env st, ∀ pa dept prac pu : Option String, ∀ magic p st',
      (∀ s ∈ st.sessions, tstr s.patient_user = true) →
      create_session env st pa dept prac pu magic = (.ok p, st') →
      tstr p.patient_user = true) ∧
    (∀ env st, ∀ dept prac pu : Option String, ∀ magic p st',
      create_session env st none dept prac pu magic = (.ok p, st') →
      p.patient_user = finalPatientUser env none pu ∧
      env.users.contains ((finalPatientUser env none pu).getD "") = true) ∧
    (∀ env st, ∀ pa dept prac pu : Option String, ∀ magic appt p st',
      tstr pa = true →
      env.appts (pa.getD "") = some appt →
      (if tstr appt.airtook_video_session = true then
        findSession st (appt.airtook_video_session.getD "") else none) = none →
      create_session env st pa dept prac pu magic = (.ok p, st') →
      p.patient_user = finalPatientUser env appt.patient pu ∧
      env.users.contains ((finalPatientUser env appt.patient pu).getD "") = true) ∧
    (∀ env st, ∀ pa : Option String, ∀ stype : String,
      ∀ patient d0 p0 pu : Option String, ∀ magic : String, ∀ dd e,
      resolveDepartment env d0 = .ok (some dd) →
      requireValidUser env (finalPatientUser env patient pu) = .error e →
      createRest env st pa stype patient d0 p0 pu magic = (.error e, st)) := by
  refine ⟨?_, ?_, ?_, ?_, ?_⟩
  · intro env patient pu
    refine ⟨?_, ?_, ?_⟩
    · intro h1
      by_cases hp : tstr patient = true
      · simp [finalPatientUser, hp, h1]
      · rw [patientUserFromPatient_falsy env patient (by simpa using hp)] at h1
        simp [tstr] at h1
    · intro h1 h2
      by_cases hp : tstr patient = true
      · simp [finalPatientUser, hp, h1, h2]
      · have hp' : tstr patient = false := by simpa using hp
        simp [finalPatientUser, hp', tstr_none, h2]
    · intro h1 h2
      by_cases hp : tstr patient = true
      · simp [finalPatientUser, hp, h1, h2]
      · have hp' : tstr patient = false := by simpa using hp
        simp [finalPatientUser, hp', tstr_none, h2]
  · intro env st pa dept prac pu magic p st' hwf h
    exact create_session_ok_nonnull env st pa dept prac pu magic p st' hwf h
  · intro env st dept prac pu magic p st' h
    unfold create_session at h
    by_cases hg : env.current_user = "Guest"
    · simp [hg] at h
    · rw [if_neg hg] at h
      dsimp only at h
      have hc := createRest_ok_patient_user _ _ _ _ _ _ _ _ _ _ _ h
      exact ⟨hc.1, hc.2.2⟩
  · intro env st pa dept prac pu magic appt p st' hpa happt hfind h
    unfold create_session at h
    by_cases hg : env.current_user = "Guest"
    · simp [hg] at h
    · rw [if_neg hg] at h
      rw [if_pos hpa] at h
      rw [happt] at h
      dsimp only at h
      rw [hfind] at h
      have hc := createRest_ok_patient_user _ _ _ _ _ _ _ _ _ _ _ h
      exact ⟨hc.1, hc.2.2⟩
  · intro env st pa stype patient d0 p0 pu magic dd e hres hval
    exact createRest_invalid_user env st pa stype patient d0 p0 pu magic dd e hres hval

/-- C5 witness: the three priority outcomes, a concrete quick consult
and a concrete scheduled booking binding `patient_user`, and a rejected
unregistered identity. -/
theorem C5_patient_user_priority_witness :
    finalPatientUser env0 (some "PAT-1") (some "bob@x") =
      patientUserFromPatient env0 (some "PAT-1") ∧
    finalPatientUser env0 none (some "bob@x") = some "bob@x" ∧
    finalPatientUser env0 none none = some "alice@x" ∧
    tstr cp5.patient_user = true ∧
    (cp5.patient_user = finalPatientUser env0 none none ∧
      env0.users.contains ((finalPatientUser env0 none none).getD "") = true) ∧
    (cp4.patient_user = finalPatientUser env0 appt1.patient none ∧
      env0.users.contains ((finalPatientUser env0 appt1.patient none).getD "") = true) ∧
    createRest env0 st0 none "Quick Consult" none (some "Nutrition") none
      (some "nobody@x") "1" = (.error (.validation "Invalid patient user"), st0) := by
  have h5 : create_session env0 st0 none (some "Nutrition") none none "1" =
      (.ok cp5, (create_session env0 st0 none (some "Nutrition") none none "1").2) := by
    decide
  have h4 : create_session env0 st0 (some "APPT-1") none none none "1" =
      (.ok cp4, (create_session env0 st0 (some "APPT-1") none none none "1").2) := by
    decide
  refine ⟨(C5_patient_user_priority.1 env0 (some "PAT-1") (some "bob@x")).1 (by decide),
    (C5_patient_user_priority.1 env0 none (some "bob@x")).2.1 (by decide) (by decide),
    (C5_patient_user_priority.1 env0 none none).2.2 (by decide) (by decide),
    C5_patient_user_priority.2.1 env0 st0 none (some "Nutrition") none none "1" cp5 _
      (by decide) h5,
    C5_patient_user_priority.2.2.1 env0 st0 (some "Nutrition") none none "1" cp5 _ h5,
    C5_patient_user_priority.2.2.2.1 env0 st0 (some "APPT-1") none none none "1" appt1 cp4 _
      (by decide) (by decide) (by decide) h4,
    C5_patient_user_priority.2.2.2.2 env0 st0 none "Quick Consult" none (some "Nutrition")
      none (some "nobody@x") "1" "Nutrition" (.validation "Invalid patient user")
      (by decide) (by decide)⟩

/-- Caller resolution either leaves the session document unchanged or
burns the magic-link key. -/
theorem resolveCaller_doc (env : Env) (doc : Session) (k : Option String) :
    (resolveCaller env doc k).2 = doc ∨
    (resolveCaller env doc k).2 =
      { doc with patient_join_key := none, patient_join_key_expires_at := none } := by
  unfold resolveCaller
  dsimp only
  repeat' (first | (exact Or.inl rfl) | (exact Or.inr rfl) | split)

/-- The access gate either leaves the session document unchanged or ends
it, recording `ended_at` only when previously unset. -/
theorem accessGate_doc (env : Env) (doc : Session) :
    (accessGate env doc).2 = doc ∨
    (accessGate env doc).2 =
      { doc with status := "Ended",
                 ended_at := if doc.ended_at.isSome then doc.ended_at else some env.now } := by
  unfold accessGate
  dsimp only
  repeat' (first | (exact Or.inl rfl) | (exact Or.inr rfl) | split)

/-- Room self-healing only rewrites the room binding fields. -/
theorem ensureRoom_fields (env : Env) (doc : Session) :
    (ensureRoom env doc).2.1.status = doc.status ∧
    (ensureRoom env doc).2.1.started_at = doc.started_at ∧
    (ensureRoom env doc).2.1.ended_at = doc.ended_at ∧
    (ensureRoom env doc).2.1.patient_join_key = doc.patient_join_key ∧
    (ensureRoom env doc).2.1.patient_join_key_expires_at = doc.patient_join_key_expires_at ∧
    (ensureRoom env doc).2.1.patient_user = doc.patient_user ∧
    (ensureRoom env doc).2.1.allow_magic_link = doc.allow_magic_link ∧
    (ensureRoom env doc).2.1.patient_appointment = doc.patient_appointment ∧
    (ensureRoom env doc).2.1.practitioner = doc.practitioner ∧
    (ensureRoom env doc).2.1.patient = doc.patient ∧
    (ensureRoom env doc).2.1.name = doc.name := by
  unfold ensureRoom
  dsimp only
  repeat' (first | (exact ⟨rfl, rfl, rfl, rfl, rfl, rfl, rfl, rfl, rfl, rfl, rfl⟩) | split)

/-- The lifecycle advance only rewrites `status` and `started_at`. -/
theorem advanceLifecycle_fields (env : Env) (doc : Session) :
    (advanceLifecycle env doc).patient_join_key = doc.patient_join_key ∧
    (advanceLifecycle env doc).patient_join_key_expires_at = doc.patient_join_key_expires_at ∧
    (advanceLifecycle env doc).patient_user = doc.patient_user ∧
    (advanceLifecycle env doc).allow_magic_link = doc.allow_magic_link ∧
    (advanceLifecycle env doc).patient_appointment = doc.patient_appointment ∧
    (advanceLifecycle env doc).practitioner = doc.practitioner ∧
    (advanceLifecycle env doc).daily_room_name = doc.daily_room_name ∧
    (advanceLifecycle env doc).ended_at = doc.ended_at ∧
    (advanceLifecycle env doc).name = doc.name := by
  unfold advanceLifecycle
  dsimp only
  repeat' (first | (exact ⟨rfl, rfl, rfl, rfl, rfl, rfl, rfl, rfl, rfl⟩) | split)

/-- The lifecycle advance never overwrites a set `started_at`. -/
theorem advanceLifecycle_started_some (env : Env) (doc : Session) (t : Int)
    (h : doc.started_at = some t) : (advanceLifecycle env doc).started_at = some t := by
  unfold advanceLifecycle
  dsimp only
  repeat' split
  all_goals simp_all


/-- A generated room name is never empty. -/
theorem roomName_ne (env : Env) (pre : String) : roomName env pre ≠ "" := by
  intro h
  have h2 := congrArg String.data h
  simp [roomName, String.data_append] at h2

/-- The room binding written by the repair path is always truthy. -/
theorem tstr_some_orStr_roomName (env : Env) (x : Option String) :
    tstr (some (orStr x (roomName env "airtook"))) = true := by
  unfold orStr
  cases x with
  | none => simp [tstr, roomName_ne env "airtook"]
  | some s =>
    by_cases hs : s == ""
    · simp [hs, tstr, roomName_ne env "airtook"]
    · simp [tstr, hs]

/-- Room self-healing keeps the room name truthy. -/
theorem ensureRoom_room_tstr (env : Env) (doc : Session)
    (h : tstr doc.daily_room_name = true) :
    tstr (ensureRoom env doc).2.1.daily_room_name = true := by
  unfold ensureRoom
  dsimp only
  repeat' (first | (exact h) | (exact tstr_some_orStr_roomName env _) | split)

/-- Guest with a key but magic link disabled is rejected. -/
theorem resolveCaller_guest_disabled (env : Env) (doc : Session) (k : Option String)
    (hg : env.current_user = "Guest") (hk : tstr k = true)
    (hmagic : doc.allow_magic_link = false) :
    resolveCaller env doc k =
      (.error (.validation "Magic link access is disabled for this consultation"), doc) := by
  simp [resolveCaller, hg, hk, hmagic]

/-- Guest with a key but no stored key or no stored expiry is rejected. -/
theorem resolveCaller_guest_no_key (env : Env) (doc : Session) (k : Option String)
    (hg : env.current_user = "Guest") (hk : tstr k = true)
    (hmagic : doc.allow_magic_link = true)
    (hmiss : tstr doc.patient_join_key = false ∨ doc.patient_join_key_expires_at = none) :
    resolveCaller env doc k =
      (.error (.validation "This join link is not enabled"), doc) := by
  rcases hmiss with hm | hm <;> simp [resolveCaller, hg, hk, hmagic, hm]

/-- Guest presenting a key different from the stored one is rejected. -/
theorem resolveCaller_guest_mismatch (env : Env) (doc : Session) (k : Option String)
    (hg : env.current_user = "Guest") (hk : tstr k = true)
    (hmagic : doc.allow_magic_link = true)
    (hkey : tstr doc.patient_join_key = true)
    (hexp : doc.patient_join_key_expires_at.isSome = true)
    (hne : k ≠ doc.patient_join_key) :
    resolveCaller env doc k = (.error (.validation "Invalid join key"), doc) := by
  obtain ⟨xt, hxt⟩ := Option.isSome_iff_exists.mp hexp
  simp [resolveCaller, hg, hk, hmagic, hkey, hxt, hne]

/-- Guest presenting the stored key after its expiry is rejected. -/
theorem resolveCaller_guest_expired (env : Env) (doc : Session) (k : Option String)
    (xt : Int)
    (hg : env.current_user = "Guest") (hk : tstr k = true)
    (hmagic : doc.allow_magic_link = true)
    (hkey : tstr doc.patient_join_key = true)
    (hexp : doc.patient_join_key_expires_at = some xt)
    (heq : k = doc.patient_join_key)
    (hlate : env.now > xt) :
    resolveCaller env doc k = (.error (.validation "Join link expired"), doc) := by
  simp [resolveCaller, hg, hk, hmagic, hkey, hexp, heq, isExpired, hlate]

/-- Guest presenting the stored, unexpired key succeeds as the patient
identity and the key is burned. -/
theorem resolveCaller_guest_ok (env : Env) (doc : Session) (k : Option String)
    (xt : Int)
    (hg : env.current_user = "Guest") (hk : tstr k = true)
    (hmagic : doc.allow_magic_link = true)
    (hkey : tstr doc.patient_join_key = true)
    (hexp : doc.patient_join_key_expires_at = some xt)
    (heq : k = doc.patient_join_key)
    (hfresh : env.now ≤ xt) :
    resolveCaller env doc k =
      (.ok ⟨"patient", doc.patient_user.getD "", env.display_name (doc.patient_user.getD "")⟩,
       { doc with patient_join_key := none, patient_join_key_expires_at := none }) := by
  have hni : ¬ env.now > xt := by omega
  simp [resolveCaller, hg, hk, hmagic, hkey, hexp, heq, isExpired, hni]

/-- Guest presenting no key is asked to log in. -/
theorem resolveCaller_guest_missing (env : Env) (doc : Session) (k : Option String)
    (hg : env.current_user = "Guest") (hk : tstr k = false) :
    resolveCaller env doc k =
      (.error (.validation "Login required (missing join key)"), doc) := by
  simp [resolveCaller, hg, hk]

/-- Any successful guest caller resolution is the patient role over the
session patient_user with the key burned. -/
theorem resolveCaller_guest_ok_inv (env : Env) (doc : Session) (k : Option String)
    (rc : RoleInfo) (d : Session)
    (hg : env.current_user = "Guest")
    (h : resolveCaller env doc k = (.ok rc, d)) :
    rc.role = "patient" ∧ rc.token_user = doc.patient_user.getD "" ∧
    d.patient_join_key = none ∧ d.patient_join_key_expires_at = none ∧
    d.patient_user = doc.patient_user ∧ d.allow_magic_link = doc.allow_magic_link ∧
    d.daily_room_name = doc.daily_room_name := by
  by_cases hk : tstr k = true
  · by_cases hm : doc.allow_magic_link = true
    · by_cases hkey : tstr doc.patient_join_key = true
      · rcases hx : doc.patient_join_key_expires_at with _ | xt
        · rw [resolveCaller_guest_no_key env doc k hg hk hm (Or.inr hx)] at h
          simp at h
        · by_cases heq : k = doc.patient_join_key
          · by_cases hlate : env.now > xt
            · rw [resolveCaller_guest_expired env doc k xt hg hk hm hkey hx heq hlate] at h
              simp at h
            · rw [resolveCaller_guest_ok env doc k xt hg hk hm hkey hx heq (by omega)] at h
              simp only [Prod.mk.injEq] at h
              obtain ⟨h1, h2⟩ := h
              obtain rfl := Except.ok.inj h1
              subst h2
              exact ⟨rfl, rfl, rfl, rfl, rfl, rfl, rfl⟩
          · rw [resolveCaller_guest_mismatch env doc k hg hk hm hkey
                (by simp [hx]) heq] at h
            simp at h
      · rw [resolveCaller_guest_no_key env doc k hg hk hm
            (Or.inl (by simpa using hkey))] at h
        simp at h
    · rw [resolveCaller_guest_disabled env doc k hg hk (by simpa using hm)] at h
      simp at h
  · rw [resolveCaller_guest_missing env doc k hg (by simpa using hk)] at h
    simp at h

/-- A caller-resolution failure aborts `get_join_info` with that error
and that document state. -/
theorem joinDoc_rc_error (env : Env) (doc : Session) (k : Option String) (e : Err) (d : Session)
    (hroom : tstr doc.daily_room_name = true)
    (huser : tstr doc.patient_user = true)
    (hrc : resolveCaller env doc k = (.error e, d)) :
    get_join_info_doc env doc k = (.error e, d) := by
  have h1 : (!tstr doc.daily_room_name) = false := by simp [hroom]
  have h2 : (!tstr doc.patient_user) = false := by simp [huser]
  simp [get_join_info_doc, h1, h2, hrc]

/-- After a successful caller resolution, the remaining stages of
`get_join_info` never touch the key, identity or magic-link fields, keep
the room name truthy, and a successful call returns the resolved role and
token identity. -/
theorem joinDoc_after_ok (env : Env) (doc : Session) (k : Option String)
    (rc : RoleInfo) (d : Session)
    (hroom : tstr doc.daily_room_name = true)
    (huser : tstr doc.patient_user = true)
    (hrc : resolveCaller env doc k = (.ok rc, d)) :
    ((get_join_info_doc env doc k).2.patient_join_key = d.patient_join_key ∧
     (get_join_info_doc env doc k).2.patient_join_key_expires_at =
       d.patient_join_key_expires_at ∧
     (get_join_info_doc env doc k).2.patient_user = d.patient_user ∧
     (get_join_info_doc env doc k).2.allow_magic_link = d.allow_magic_link ∧
     (tstr d.daily_room_name = true →
       tstr (get_join_info_doc env doc k).2.daily_room_name = true)) ∧
    (∀ j d', get_join_info_doc env doc k = (.ok j, d') →
      j.role = rc.role ∧ j.token.user_id = rc.token_user ∧
      j.token.is_owner = decide (rc.role = "practitioner")) := by
  have h1 : (!tstr doc.daily_room_name) = false := by simp [hroom]
  have h2 : (!tstr doc.patient_user) = false := by simp [huser]
  unfold get_join_info_doc
  simp only [h1, h2, Bool.false_eq_true, if_false]
  rw [hrc]
  dsimp only
  rcases hag : accessGate env d with ⟨r2, d2⟩
  have hagd :
      d2 = d ∨
        d2 =
          { d with
              status := "Ended",
              ended_at := if d.ended_at.isSome then d.ended_at else some env.now } := by
    have hh := accessGate_doc env d
    rw [hag] at hh
    exact hh
  clear hag
  have k2 : d2.patient_join_key = d.patient_join_key := by
    rcases hagd with rfl | rfl <;> rfl
  have x2 : d2.patient_join_key_expires_at = d.patient_join_key_expires_at := by
    rcases hagd with rfl | rfl <;> rfl
  have u2 : d2.patient_user = d.patient_user := by
    rcases hagd with rfl | rfl <;> rfl
  have m2 : d2.allow_magic_link = d.allow_magic_link := by
    rcases hagd with rfl | rfl <;> rfl
  have r2eq : d2.daily_room_name = d.daily_room_name := by
    rcases hagd with rfl | rfl <;> rfl
  cases r2 with
  | error e2 =>
    refine ⟨⟨k2, x2, u2, m2, ?_⟩, ?_⟩
    · intro ht; rw [r2eq]; exact ht
    · intro j d' hj; simp at hj
  | ok u =>
    dsimp only
    rcases her : ensureRoom env d2 with ⟨r3, d3, b⟩
    have hf := ensureRoom_fields env d2
    rw [her] at hf
    dsimp only at hf
    have hrt : tstr d2.daily_room_name = true → tstr d3.daily_room_name = true := by
      intro ht
      have hh := ensureRoom_room_tstr env d2 ht
      rw [her] at hh
      exact hh
    cases r3 with
    | error e3 =>
      dsimp only
      refine ⟨⟨?_, ?_, ?_, ?_, ?_⟩, ?_⟩
      · rw [hf.2.2.2.1, k2]
      · rw [hf.2.2.2.2.1, x2]
      · rw [hf.2.2.2.2.2.1, u2]
      · rw [hf.2.2.2.2.2.2.1, m2]
      · intro ht; exact hrt (r2eq ▸ ht)
      · intro j d' hj; simp at hj
    | ok url =>
      dsimp only
      by_cases htok : env.token_ok (d3.daily_room_name.getD "")
          (decide (rc.role = "practitioner")) rc.token_user = true
      · have htm : daily_create_meeting_token env (d3.daily_room_name.getD "")
            (rc.role = "practitioner") rc.token_user =
            .ok ⟨d3.daily_room_name.getD "", (rc.role = "practitioner"), rc.token_user⟩ := by
          simp [daily_create_meeting_token, htok]
        rw [htm]
        dsimp only
        have ha := advanceLifecycle_fields env d3
        refine ⟨⟨?_, ?_, ?_, ?_, ?_⟩, ?_⟩
        · rw [ha.1, hf.2.2.2.1, k2]
        · rw [ha.2.1, hf.2.2.2.2.1, x2]
        · rw [ha.2.2.1, hf.2.2.2.2.2.1, u2]
        · rw [ha.2.2.2.1, hf.2.2.2.2.2.2.1, m2]
        · intro ht
          rw [ha.2.2.2.2.2.2.1]
          exact hrt (r2eq ▸ ht)
        · intro j d' hj
          simp only [Prod.mk.injEq] at hj
          obtain ⟨hj1, hj2⟩ := hj
          obtain rfl := Except.ok.inj hj1
          exact ⟨rfl, rfl, rfl⟩
      · have htm : daily_create_meeting_token env (d3.daily_room_name.getD "")
            (rc.role = "practitioner") rc.token_user =
            .error (.validation "Daily create token failed") := by
          simp [daily_create_meeting_token, htok]
        rw [htm]
        dsimp only
        refine ⟨⟨?_, ?_, ?_, ?_, ?_⟩, ?_⟩
        · rw [hf.2.2.2.1, k2]
        · rw [hf.2.2.2.2.1, x2]
        · rw [hf.2.2.2.2.2.1, u2]
        · rw [hf.2.2.2.2.2.2.1, m2]
        · intro ht; exact hrt (r2eq ▸ ht)
        · intro j d' hj; simp at hj


/-- C1: a guest caller presenting a key fails when magic link is
disabled, no key (or no expiry) is stored, the presented key mismatches,
or the stored key is expired; on success the stored key and its expiry
are deleted before any further processing, so a second guest call
presenting the same key fails, and a successful call issues a
patient-role non-owner token bound to the session patient_user. -/
theorem C1_guest_magic_link (env : Env) (doc : Session) (k : Option String)
    (hg : env.current_user = "Guest")
    (hk : tstr k = true)
    (hroom : tstr doc.daily_room_name = true)
    (huser : tstr doc.patient_user = true) :
    (doc.allow_magic_link = false →
      get_join_info_doc env doc k =
        (.error (.validation "Magic link access is disabled for this consultation"), doc)) ∧
    (doc.allow_magic_link = true →
      (tstr doc.patient_join_key = false ∨ doc.patient_join_key_expires_at = none) →
      get_join_info_doc env doc k =
        (.error (.validation "This join link is not enabled"), doc)) ∧
    (doc.allow_magic_link = true →
      tstr doc.patient_join_key = true →
      doc.patient_join_key_expires_at.isSome = true →
      k ≠ doc.patient_join_key →
      get_join_info_doc env doc k = (.error (.validation "Invalid join key"), doc)) ∧
    (∀ xt : Int, doc.allow_magic_link = true →
      tstr doc.patient_join_key = true →
      doc.patient_join_key_expires_at = some xt →
      k = doc.patient_join_key →
      env.now > xt →
      get_join_info_doc env doc k = (.error (.validation "Join link expired"), doc)) ∧
    (∀ xt : Int, doc.allow_magic_link = true →
      tstr doc.patient_join_key = true →
      doc.patient_join_key_expires_at = some xt →
      k = doc.patient_join_key →
      env.now ≤ xt →
      ((get_join_info_doc env doc k).2.patient_join_key = none ∧
       (get_join_info_doc env doc k).2.patient_join_key_expires_at = none ∧
       (∀ env2 k2, env2.current_user = "Guest" → tstr k2 = true →
         (get_join_info_doc env2 (get_join_info_doc env doc k).2 k2).1 =
           .error (.validation "This join link is not enabled")))) ∧
    (∀ j d', get_join_info_doc env doc k = (.ok j, d') →
      j.role = "patient" ∧ j.token.user_id = doc.patient_user.getD "" ∧
      j.token.is_owner = false ∧ d'.patient_join_key = none) := by
  refine ⟨?_, ?_, ?_, ?_, ?_, ?_⟩
  · intro hm
    exact joinDoc_rc_error env doc k _ doc hroom huser
      (resolveCaller_guest_disabled env doc k hg hk hm)
  · intro hm hmiss
    exact joinDoc_rc_error env doc k _ doc hroom huser
      (resolveCaller_guest_no_key env doc k hg hk hm hmiss)
  · intro hm hkey hexp hne
    exact joinDoc_rc_error env doc k _ doc hroom huser
      (resolveCaller_guest_mismatch env doc k hg hk hm hkey hexp hne)
  · intro xt hm hkey hexp heq hlate
    exact joinDoc_rc_error env doc k _ doc hroom huser
      (resolveCaller_guest_expired env doc k xt hg hk hm hkey hexp heq hlate)
  · intro xt hm hkey hexp heq hfresh
    have hrc := resolveCaller_guest_ok env doc k xt hg hk hm hkey hexp heq hfresh
    have hj := joinDoc_after_ok env doc k _ _ hroom huser hrc
    refine ⟨hj.1.1, hj.1.2.1, ?_⟩
    intro env2 k2 hg2 hk2
    have hRkey : tstr (get_join_info_doc env doc k).2.patient_join_key = false := by
      rw [hj.1.1]; rfl
    have hRmagic : (get_join_info_doc env doc k).2.allow_magic_link = true := by
      rw [hj.1.2.2.2.1]; exact hm
    have hRuser : tstr (get_join_info_doc env doc k).2.patient_user = true := by
      rw [hj.1.2.2.1]; exact huser
    have hRroom : tstr (get_join_info_doc env doc k).2.daily_room_name = true := by
      exact hj.1.2.2.2.2 hroom
    have h2 := joinDoc_rc_error env2 (get_join_info_doc env doc k).2 k2 _
      (get_join_info_doc env doc k).2 hRroom hRuser
      (resolveCaller_guest_no_key env2 (get_join_info_doc env doc k).2 k2 hg2 hk2
        hRmagic (Or.inl hRkey))
    exact congrArg Prod.fst h2
  · intro j d' h
    rcases hrcr : resolveCaller env doc k with ⟨res, d⟩
    cases res with
    | error e =>
      rw [joinDoc_rc_error env doc k e d hroom huser hrcr] at h
      simp at h
    | ok rc =>
      have hinv := resolveCaller_guest_ok_inv env doc k rc d hg hrcr
      have hj := joinDoc_after_ok env doc k rc d hroom huser hrcr
      have hshape := hj.2 j d' h
      refine ⟨hshape.1.trans hinv.1, hshape.2.1.trans hinv.2.1, ?_, ?_⟩
      · rw [hshape.2.2, hinv.1]
        rfl
      · have hd' : (get_join_info_doc env doc k).2 = d' := congrArg Prod.snd h
        rw [← hd', hj.1.1, hinv.2.2.1]
    
/-- C1 witness: each guest outcome at concrete inputs against doc0. -/
theorem C1_guest_magic_link_witness :
    get_join_info_doc envG { doc0 with allow_magic_link := false } (some "KEY1") =
      (.error (.validation "Magic link access is disabled for this consultation"),
       { doc0 with allow_magic_link := false }) ∧
    get_join_info_doc envG { doc0 with patient_join_key := none } (some "KEY1") =
      (.error (.validation "This join link is not enabled"),
       { doc0 with patient_join_key := none }) ∧
    get_join_info_doc envG doc0 (some "WRONG") =
      (.error (.validation "Invalid join key"), doc0) ∧
    get_join_info_doc { envG with now := 2000 } doc0 (some "KEY1") =
      (.error (.validation "Join link expired"), doc0) ∧
    ((get_join_info_doc envG doc0 (some "KEY1")).2.patient_join_key = none ∧
     (get_join_info_doc envG doc0 (some "KEY1")).2.patient_join_key_expires_at = none ∧
     (get_join_info_doc envG (get_join_info_doc envG doc0 (some "KEY1")).2 (some "KEY1")).1 =
       .error (.validation "This join link is not enabled")) ∧
    (jG.role = "patient" ∧ jG.token.user_id = doc0.patient_user.getD "" ∧
     jG.token.is_owner = false ∧
     (get_join_info_doc envG doc0 (some "KEY1")).2.patient_join_key = none) := by
  have hok : get_join_info_doc envG doc0 (some "KEY1") =
      (.ok jG, (get_join_info_doc envG doc0 (some "KEY1")).2) := by decide
  have hfresh := (C1_guest_magic_link envG doc0 (some "KEY1") (by decide) (by decide)
      (by decide) (by decide)).2.2.2.2.1 1500 (by decide) (by decide) (by decide)
      (by decide) (by decide)
  refine ⟨?_, ?_, ?_, ?_, ⟨hfresh.1, hfresh.2.1, hfresh.2.2 envG (some "KEY1")
      (by decide) (by decide)⟩, ?_⟩
  · exact (C1_guest_magic_link envG { doc0 with allow_magic_link := false } (some "KEY1")
      (by decide) (by decide) (by decide) (by decide)).1 (by decide)
  · exact (C1_guest_magic_link envG { doc0 with patient_join_key := none } (some "KEY1")
      (by decide) (by decide) (by decide) (by decide)).2.1 (by decide) (Or.inl (by decide))
  · exact (C1_guest_magic_link envG doc0 (some "WRONG")
      (by decide) (by decide) (by decide) (by decide)).2.2.1 (by decide) (by decide)
      (by decide) (by decide)
  · exact (C1_guest_magic_link { envG with now := 2000 } doc0 (some "KEY1")
      (by decide) (by decide) (by decide) (by decide)).2.2.2.1 1500 (by decide) (by decide)
      (by decide) (by decide) (by decide)
  · exact (C1_guest_magic_link envG doc0 (some "KEY1") (by decide) (by decide)
      (by decide) (by decide)).2.2.2.2.2 jG _ hok

/-- C2: for a session with a scheduled appointment bearing a date and a
time, the access window opens 10 minutes before the appointment start
and closes at start + duration + 60 minutes, with duration defaulting to
30 minutes; a call before the open bound is denied; a call after the
close bound is denied, transitioning a non-Ended session to Ended and
recording ended_at if not already set; an already-Ended session is also
denied past ended_at + 60 minutes; and a gate error aborts
`get_join_info` with that error and state. -/
theorem C2_access_window (env : Env) (doc : Session) (pa : String) (appt : Appt)
    (hpa : doc.patient_appointment = some pa)
    (hne : pa ≠ "")
    (happt : env.appts pa = some appt)
    (hdate : tstr appt.appointment_date = true)
    (htime : tstr appt.appointment_time = true) :
    (appt.duration = none →
      computeAccessWindow env doc =
        .ok (some (env.appointment_start (appt.appointment_date.getD "")
              (appt.appointment_time.getD "") - 10),
          some (env.appointment_start (appt.appointment_date.getD "")
              (appt.appointment_time.getD "") + (30 + 60)), "scheduled")) ∧
    (∀ dd : Int, appt.duration = some dd → dd ≠ 0 →
      computeAccessWindow env doc =
        .ok (some (env.appointment_start (appt.appointment_date.getD "")
              (appt.appointment_time.getD "") - 10),
          some (env.appointment_start (appt.appointment_date.getD "")
              (appt.appointment_time.getD "") + (dd + 60)), "scheduled")) ∧
    (∀ op cl, computeAccessWindow env doc = .ok (some op, cl, "scheduled") →
      env.now < op →
      accessGate env doc =
        (.error (.validation "Please join within 10 minutes of your appointment time."), doc)) ∧
    (∀ op cl, computeAccessWindow env doc = .ok (some op, some cl, "scheduled") →
      ¬ env.now < op → env.now > cl → doc.status ≠ "Ended" →
      accessGate env doc =
        (.error (.validation "This session has expired. Please book a new appointment."),
         { doc with status := "Ended",
                    ended_at := if doc.ended_at.isSome then doc.ended_at else some env.now })) ∧
    (∀ op cl, computeAccessWindow env doc = .ok (some op, some cl, "scheduled") →
      ¬ env.now < op → env.now > cl → doc.status = "Ended" →
      accessGate env doc =
        (.error (.validation "This session has expired. Please book a new appointment."), doc)) ∧
    (∀ op cl e, computeAccessWindow env doc = .ok (some op, some cl, "scheduled") →
      ¬ env.now < op → ¬ env.now > cl → doc.status = "Ended" → doc.ended_at = some e →
      env.now > e + 60 →
      accessGate env doc =
        (.error (.validation "This session has expired. Please book a new appointment."), doc)) ∧
    (∀ k rc d e d2, tstr doc.daily_room_name = true → tstr doc.patient_user = true →
      resolveCaller env doc k = (.ok rc, d) → accessGate env d = (.error e, d2) →
      get_join_info_doc env doc k = (.error e, d2)) := by
  have hpat : tstr doc.patient_appointment = true := by simp [hpa, tstr, hne]
  have hga : getApptDatetimeAndDuration env (doc.patient_appointment.getD "") =
      .ok (some (env.appointment_start (appt.appointment_date.getD "")
        (appt.appointment_time.getD "")),
        match appt.duration with | none => 30 | some d => if d = 0 then 30 else d) := by
    simp [hpa, getApptDatetimeAndDuration, happt, hdate, htime]
  refine ⟨?_, ?_, ?_, ?_, ?_, ?_, ?_⟩
  · intro hdur
    rw [hdur] at hga
    simp [computeAccessWindow, hpat, hga]
  · intro dd hdur hdd
    rw [hdur] at hga
    simp only [hdd, if_false] at hga
    simp [computeAccessWindow, hpat, hga, hdd]
  · intro op cl hw hearly
    simp [accessGate, hw, hearly]
  · intro op cl hw hearly hlate hstat
    simp [accessGate, hw, hearly, hlate, hstat]
  · intro op cl hw hearly hlate hstat
    simp [accessGate, hw, hearly, hlate, hstat]
  · intro op cl e hw hearly hlate hstat hend hhard
    simp [accessGate, hw, hearly, hlate, hstat, hend, hhard]
  · intro k rc d e d2 hroom huser hrc hag
    have h1 : (!tstr doc.daily_room_name) = false := by simp [hroom]
    have h2 : (!tstr doc.patient_user) = false := by simp [huser]
    simp [get_join_info_doc, h1, h2, hrc, hag]

/-- C2 witness: the window shape with and without a recorded duration,
the three denials, and the denial propagating through the full call. -/
theorem C2_access_window_witness :
    computeAccessWindow env0 { doc0 with patient_appointment := some "APPT-4" } =
      .ok (some 1990, some 2090, "scheduled") ∧
    computeAccessWindow env0 docS = .ok (some 1990, some 2080, "scheduled") ∧
    accessGate env0 docS =
      (.error (.validation "Please join within 10 minutes of your appointment time."), docS) ∧
    accessGate { env0 with now := 3000 } docS =
      (.error (.validation "This session has expired. Please book a new appointment."),
       { docS with status := "Ended", ended_at := some 3000 }) ∧
    accessGate { env0 with now := 3000 } docSE =
      (.error (.validation "This session has expired. Please book a new appointment."), docSE) ∧
    accessGate { env0 with now := 2050 } docSE =
      (.error (.validation "This session has expired. Please book a new appointment."), docSE) ∧
    get_join_info_doc env0 docS none =
      (.error (.validation "Please join within 10 minutes of your appointment time."), docS) := by
  have c1 := C2_access_window env0 { doc0 with patient_appointment := some "APPT-4" }
      "APPT-4" apptNoDur rfl (by decide) (by decide) (by decide) (by decide)
  have hw4 := c1.1 rfl
  have c2 := C2_access_window env0 docS "APPT-1" appt1 rfl (by decide) (by decide)
      (by decide) (by decide)
  have hwS := c2.2.1 20 rfl (by decide)
  have hearly := c2.2.2.1 _ _ hwS (by decide)
  have cL := C2_access_window { env0 with now := 3000 } docS "APPT-1" appt1 rfl (by decide)
      (by decide) (by decide) (by decide)
  have hwL := cL.2.1 20 rfl (by decide)
  have hclose := cL.2.2.2.1 _ _ hwL (by decide) (by decide) (by decide)
  have cLE := C2_access_window { env0 with now := 3000 } docSE "APPT-1" appt1 rfl (by decide)
      (by decide) (by decide) (by decide)
  have hwLE := cLE.2.1 20 rfl (by decide)
  have hcloseE := cLE.2.2.2.2.1 _ _ hwLE (by decide) (by decide) rfl
  have cH := C2_access_window { env0 with now := 2050 } docSE "APPT-1" appt1 rfl (by decide)
      (by decide) (by decide) (by decide)
  have hwH := cH.2.1 20 rfl (by decide)
  have hhard := cH.2.2.2.2.2.1 _ _ 1000 hwH (by decide) (by decide) rfl rfl (by decide)
  have hprop := c2.2.2.2.2.2.2 none ⟨"patient", "alice@x", "alice@x"⟩ docS _ docS
      (by decide) (by decide) (by decide) hearly
  exact ⟨hw4.trans (by decide), hwS.trans (by decide), hearly, hclose.trans (by decide),
    hcloseE, hhard, hprop⟩

/-- The lifecycle advance leaves an Ended session Ended. -/
theorem advanceLifecycle_status_ended (env : Env) (doc : Session)
    (h : doc.status = "Ended") : (advanceLifecycle env doc).status = "Ended" := by
  unfold advanceLifecycle
  dsimp only
  repeat' split
  all_goals simp_all

/-- If the lifecycle advance sets a previously unset `started_at`, the
session entered Active and the timestamp is the current instant. -/
theorem advanceLifecycle_new_start (env : Env) (doc : Session)
    (h0 : doc.started_at = none)
    (h1 : (advanceLifecycle env doc).started_at ≠ none) :
    (advanceLifecycle env doc).status = "Active" ∧
    (advanceLifecycle env doc).started_at = some env.now := by
  unfold advanceLifecycle at h1 ⊢
  dsimp only at h1 ⊢
  repeat' split at h1
  all_goals simp_all
  all_goals (repeat' split)
  all_goals simp_all

/-- Lifecycle facts of one `get_join_info` call: set timestamps are
retained, a newly set `started_at` coincides with entry into Active, a
newly set `ended_at` coincides with entry into Ended, and the
Ended-consistency of `ended_at` is preserved. -/
theorem joinDoc_lifecycle (env : Env) (doc : Session) (k : Option String) :
    (∀ t, doc.started_at = some t → (get_join_info_doc env doc k).2.started_at = some t) ∧
    (∀ t, doc.ended_at = some t → (get_join_info_doc env doc k).2.ended_at = some t) ∧
    (doc.started_at = none → (get_join_info_doc env doc k).2.started_at ≠ none →
      (get_join_info_doc env doc k).2.status = "Active" ∧
      (get_join_info_doc env doc k).2.started_at = some env.now) ∧
    (doc.ended_at = none → (get_join_info_doc env doc k).2.ended_at ≠ none →
      (get_join_info_doc env doc k).2.status = "Ended" ∧
      (get_join_info_doc env doc k).2.ended_at = some env.now) ∧
    ((doc.ended_at ≠ none → doc.status = "Ended") →
      (get_join_info_doc env doc k).2.ended_at ≠ none →
      (get_join_info_doc env doc k).2.status = "Ended") := by
  by_cases hroom : tstr doc.daily_room_name = true
  case neg =>
    have h1 : (!tstr doc.daily_room_name) = true := by simp [Bool.not_eq_true] at hroom ⊢; exact hroom
    unfold get_join_info_doc
    rw [if_pos h1]
    exact ⟨fun t ht => ht, fun t ht => ht, fun h0 h1 => absurd h0 h1, fun h0 h1 => absurd h0 h1,
      fun hc hn => hc hn⟩
  case pos =>
  by_cases huser : tstr doc.patient_user = true
  case neg =>
    have h1 : (!tstr doc.daily_room_name) = false := by simp [hroom]
    have h2 : (!tstr doc.patient_user) = true := by simp [Bool.not_eq_true] at huser ⊢; exact huser
    unfold get_join_info_doc
    rw [if_neg (by simp [h1]), if_pos h2]
    exact ⟨fun t ht => ht, fun t ht => ht, fun h0 h1 => absurd h0 h1, fun h0 h1 => absurd h0 h1,
      fun hc hn => hc hn⟩
  case pos =>
  rcases hrcr : resolveCaller env doc k with ⟨res, d⟩
  have hdd :
      d = doc ∨
        d =
          { doc with
              patient_join_key := none,
              patient_join_key_expires_at := none } := by
    have hh := resolveCaller_doc env doc k
    rw [hrcr] at hh
    exact hh
  have hds : d.started_at = doc.started_at := by rcases hdd with rfl | rfl <;> rfl
  have hde : d.ended_at = doc.ended_at := by rcases hdd with rfl | rfl <;> rfl
  have hdst : d.status = doc.status := by rcases hdd with rfl | rfl <;> rfl
  cases res with
  | error e =>
    rw [joinDoc_rc_error env doc k e d hroom huser hrcr]
    refine ⟨fun t ht => hds.trans ht, fun t ht => hde.trans ht,
      fun h0 h1 => absurd (hds.trans h0) h1, fun h0 h1 => absurd (hde.trans h0) h1, ?_⟩
    intro hc hn
    have hx : doc.ended_at ≠ none := by rw [← hde]; exact hn
    exact hdst.trans (hc hx)
  | ok rc =>
    have h1 : (!tstr doc.daily_room_name) = false := by simp [hroom]
    have h2 : (!tstr doc.patient_user) = false := by simp [huser]
    unfold get_join_info_doc
    rw [if_neg (by simp [h1]), if_neg (by simp [h2]), hrcr]
    dsimp only
    rcases hag : accessGate env d with ⟨r2, d2⟩
    have hagd := accessGate_doc env d
    rw [hag] at hagd
    dsimp only at hagd
    rcases hagd with rfl | rfl
    · cases r2 with
      | error e2 =>
        refine ⟨fun t ht => hds.trans ht, fun t ht => hde.trans ht,
          fun h0 hne0 => absurd (hds.trans h0) hne0,
          fun h0 hne0 => absurd (hde.trans h0) hne0, ?_⟩
        intro hc hn
        have hx : doc.ended_at ≠ none := by rw [← hde]; exact hn
        exact hdst.trans (hc hx)
      | ok u =>
        try dsimp only
        rcases her : ensureRoom env d2 with ⟨r3, d3, b⟩
        have hf := ensureRoom_fields env d2
        rw [her] at hf
        dsimp only at hf
        have f_sta : d3.status = d2.status := hf.1
        have f_st : d3.started_at = d2.started_at := hf.2.1
        have f_en : d3.ended_at = d2.ended_at := hf.2.2.1
        cases r3 with
        | error e3 =>
          refine ⟨fun t ht => f_st.trans (hds.trans ht),
            fun t ht => f_en.trans (hde.trans ht),
            fun h0 hne0 => absurd (f_st.trans (hds.trans h0)) hne0,
            fun h0 hne0 => absurd (f_en.trans (hde.trans h0)) hne0, ?_⟩
          intro hc hn
          have hx : doc.ended_at ≠ none := by
            rw [← hde, ← f_en]; exact hn
          exact f_sta.trans (hdst.trans (hc hx))
        | ok url =>
          try dsimp only
          by_cases htok : env.token_ok (d3.daily_room_name.getD "")
              (decide (rc.role = "practitioner")) rc.token_user = true
          · have htm : daily_create_meeting_token env (d3.daily_room_name.getD "")
                (rc.role = "practitioner") rc.token_user =
                .ok ⟨d3.daily_room_name.getD "", (rc.role = "practitioner"), rc.token_user⟩ := by
              simp [daily_create_meeting_token, htok]
            rw [htm]
            try dsimp only
            have ha := advanceLifecycle_fields env d3
            refine ⟨?_, ?_, ?_, ?_, ?_⟩
            · intro t ht
              exact advanceLifecycle_started_some env d3 t (f_st.trans (hds.trans ht))
            · intro t ht
              rw [ha.2.2.2.2.2.2.2.1]
              exact f_en.trans (hde.trans ht)
            · intro h0 hne0
              exact advanceLifecycle_new_start env d3 (f_st.trans (hds.trans h0)) hne0
            · intro h0 hne0
              exfalso
              apply hne0
              rw [ha.2.2.2.2.2.2.2.1]
              exact f_en.trans (hde.trans h0)
            · intro hc hn
              have hx : doc.ended_at ≠ none := by
                rw [← hde, ← f_en, ← ha.2.2.2.2.2.2.2.1]; exact hn
              exact advanceLifecycle_status_ended env d3
                (f_sta.trans (hdst.trans (hc hx)))
          · have htm : daily_create_meeting_token env (d3.daily_room_name.getD "")
                (rc.role = "practitioner") rc.token_user =
                .error (.validation "Daily create token failed") := by
              simp [daily_create_meeting_token, htok]
            rw [htm]
            try dsimp only
            refine ⟨fun t ht => f_st.trans (hds.trans ht),
              fun t ht => f_en.trans (hde.trans ht),
              fun h0 hne0 => absurd (f_st.trans (hds.trans h0)) hne0,
              fun h0 hne0 => absurd (f_en.trans (hde.trans h0)) hne0, ?_⟩
            intro hc hn
            have hx : doc.ended_at ≠ none := by
              rw [← hde, ← f_en]; exact hn
            exact f_sta.trans (hdst.trans (hc hx))
    · cases r2 with
      | error e2 =>
        refine ⟨fun t ht => hds.trans ht, ?_, 
          fun h0 hne0 => absurd (hds.trans h0) hne0, ?_, fun hc hn => rfl⟩
        · intro t ht
          have hx : d.ended_at = some t := hde.trans ht
          show (if d.ended_at.isSome then d.ended_at else some env.now) = some t
          simp [hx]
        · intro h0 hne0
          have hx : d.ended_at = none := hde.trans h0
          refine ⟨rfl, ?_⟩
          show (if d.ended_at.isSome then d.ended_at else some env.now) = some env.now
          simp [hx]
      | ok u =>
        try dsimp only
        rcases her : ensureRoom env
            { d with status := "Ended",
                     ended_at := if d.ended_at.isSome then d.ended_at else some env.now }
          with ⟨r3, d3, b⟩
        have hf := ensureRoom_fields env
            { d with status := "Ended",
                     ended_at := if d.ended_at.isSome then d.ended_at else some env.now }
        rw [her] at hf
        dsimp only at hf
        have f_sta : d3.status = "Ended" := hf.1
        have f_st : d3.started_at = d.started_at := hf.2.1
        have f_en : d3.ended_at =
            (if d.ended_at.isSome then d.ended_at else some env.now) := hf.2.2.1
        cases r3 with
        | error e3 =>
          refine ⟨fun t ht => f_st.trans (hds.trans ht), ?_,
            fun h0 hne0 => absurd (f_st.trans (hds.trans h0)) hne0, ?_,
            fun hc hn => f_sta⟩
          · intro t ht
            rw [f_en]
            have hx : d.ended_at = some t := hde.trans ht
            simp [hx]
          · intro h0 hne0
            have hx : d.ended_at = none := hde.trans h0
            refine ⟨f_sta, ?_⟩
            rw [f_en]
            simp [hx]
        | ok url =>
          try dsimp only
          by_cases htok : env.token_ok (d3.daily_room_name.getD "")
              (decide (rc.role = "practitioner")) rc.token_user = true
          · have htm : daily_create_meeting_token env (d3.daily_room_name.getD "")
                (rc.role = "practitioner") rc.token_user =
                .ok ⟨d3.daily_room_name.getD "", (rc.role = "practitioner"), rc.token_user⟩ := by
              simp [daily_create_meeting_token, htok]
            rw [htm]
            try dsimp only
            have ha := advanceLifecycle_fields env d3
            refine ⟨?_, ?_, ?_, ?_, fun hc hn => advanceLifecycle_status_ended env d3 f_sta⟩
            · intro t ht
              exact advanceLifecycle_started_some env d3 t (f_st.trans (hds.trans ht))
            · intro t ht
              rw [ha.2.2.2.2.2.2.2.1, f_en]
              have hx : d.ended_at = some t := hde.trans ht
              simp [hx]
            · intro h0 hne0
              exact advanceLifecycle_new_start env d3 (f_st.trans (hds.trans h0)) hne0
            · intro h0 hne0
              have hx : d.ended_at = none := hde.trans h0
              refine ⟨advanceLifecycle_status_ended env d3 f_sta, ?_⟩
              rw [ha.2.2.2.2.2.2.2.1, f_en]
              simp [hx]
          · have htm : daily_create_meeting_token env (d3.daily_room_name.getD "")
                (rc.role = "practitioner") rc.token_user =
                .error (.validation "Daily create token failed") := by
              simp [daily_create_meeting_token, htok]
            rw [htm]
            try dsimp only
            refine ⟨fun t ht => f_st.trans (hds.trans ht), ?_,
              fun h0 hne0 => absurd (f_st.trans (hds.trans h0)) hne0, ?_,
              fun hc hn => f_sta⟩
            · intro t ht
              rw [f_en]
              have hx : d.ended_at = some t := hde.trans ht
              simp [hx]
            · intro h0 hne0
              have hx : d.ended_at = none := hde.trans h0
              refine ⟨f_sta, ?_⟩
              rw [f_en]
              simp [hx]

/-- Lifecycle facts of one `end_session` call. -/
theorem endDoc_lifecycle (env : Env) (doc : Session) :
    (∀ t, doc.ended_at = some t → (end_session_doc env doc).2.ended_at = some t) ∧
    ((end_session_doc env doc).2.started_at = doc.started_at) ∧
    (doc.ended_at = none → (end_session_doc env doc).2.ended_at ≠ none →
      (end_session_doc env doc).2.status = "Ended" ∧
      (end_session_doc env doc).2.ended_at = some env.now) ∧
    ((doc.ended_at ≠ none → doc.status = "Ended") →
      (end_session_doc env doc).2.ended_at ≠ none →
      (end_session_doc env doc).2.status = "Ended") := by
  unfold end_session_doc
  dsimp only
  repeat' split
  all_goals refine ⟨?_, ?_, ?_, ?_⟩
  all_goals intros
  all_goals (repeat' split)
  all_goals simp_all

/-- `submit_rating` never touches status or timestamps. -/
theorem rateDoc_fields (env : Env) (doc : Session) (r : Option Int) (c : Option String) :
    (submit_rating_doc env doc r c).2.1.started_at = doc.started_at ∧
    (submit_rating_doc env doc r c).2.1.ended_at = doc.ended_at ∧
    (submit_rating_doc env doc r c).2.1.status = doc.status := by
  unfold submit_rating_doc
  dsimp only
  repeat' (first | (exact ⟨rfl, rfl, rfl⟩) | split)

/-- C6: `started_at` is set at most once, on first entry into Active,
and keeps its first value across any sequence of API calls; `ended_at`
is set at most once, on first entry into Ended, and keeps its first
value across any sequence of end or expiry triggers. -/
theorem C6_timestamps_set_once :
    (∀ ops (doc : Session) (t : Int), doc.started_at = some t →
      (runOps ops doc).started_at = some t) ∧
    (∀ ops (doc : Session) (t : Int), doc.ended_at = some t →
      (runOps ops doc).ended_at = some t) ∧
    (∀ env (doc : Session) k, doc.started_at = none →
      (get_join_info_doc env doc k).2.started_at ≠ none →
      (get_join_info_doc env doc k).2.status = "Active" ∧
      (get_join_info_doc env doc k).2.started_at = some env.now) ∧
    (∀ env (doc : Session) k, doc.ended_at = none →
      (get_join_info_doc env doc k).2.ended_at ≠ none →
      (get_join_info_doc env doc k).2.status = "Ended" ∧
      (get_join_info_doc env doc k).2.ended_at = some env.now) ∧
    (∀ env (doc : Session), doc.ended_at = none →
      (end_session_doc env doc).2.ended_at ≠ none →
      (end_session_doc env doc).2.status = "Ended" ∧
      (end_session_doc env doc).2.ended_at = some env.now) ∧
    (∀ env (doc : Session), (end_session_doc env doc).2.started_at = doc.started_at) ∧
    (∀ env (doc : Session) r c,
      (submit_rating_doc env doc r c).2.1.started_at = doc.started_at ∧
      (submit_rating_doc env doc r c).2.1.ended_at = doc.ended_at) := by
  have hstep_s : ∀ (op : SessionOp) (doc : Session) (t : Int), doc.started_at = some t →
      (applyOp doc op).started_at = some t := by
    intro op doc t ht
    cases op with
    | join env k => exact (joinDoc_lifecycle env doc k).1 t ht
    | endSession env => rw [show (applyOp doc (.endSession env)) =
        (end_session_doc env doc).2 from rfl, (endDoc_lifecycle env doc).2.1]; exact ht
    | rate env r c => rw [show (applyOp doc (.rate env r c)) =
        (submit_rating_doc env doc r c).2.1 from rfl, (rateDoc_fields env doc r c).1]; exact ht
  have hstep_e : ∀ (op : SessionOp) (doc : Session) (t : Int), doc.ended_at = some t →
      (applyOp doc op).ended_at = some t := by
    intro op doc t ht
    cases op with
    | join env k => exact (joinDoc_lifecycle env doc k).2.1 t ht
    | endSession env => exact (endDoc_lifecycle env doc).1 t ht
    | rate env r c => rw [show (applyOp doc (.rate env r c)) =
        (submit_rating_doc env doc r c).2.1 from rfl, (rateDoc_fields env doc r c).2.1]; exact ht
  refine ⟨?_, ?_, ?_, ?_, ?_, ?_, ?_⟩
  · intro ops
    induction ops with
    | nil => intro doc t ht; exact ht
    | cons op ops ih =>
      intro doc t ht
      exact ih (applyOp doc op) t (hstep_s op doc t ht)
  · intro ops
    induction ops with
    | nil => intro doc t ht; exact ht
    | cons op ops ih =>
      intro doc t ht
      exact ih (applyOp doc op) t (hstep_e op doc t ht)
  · intro env doc k
    exact (joinDoc_lifecycle env doc k).2.2.1
  · intro env doc k
    exact (joinDoc_lifecycle env doc k).2.2.2.1
  · intro env doc
    exact (endDoc_lifecycle env doc).2.2.1
  · intro env doc
    exact (endDoc_lifecycle env doc).2.1
  · intro env doc r c
    exact ⟨(rateDoc_fields env doc r c).1, (rateDoc_fields env doc r c).2.1⟩

/-- C6 witness: retention across a concrete call sequence and the three
first-set situations at concrete inputs. -/
theorem C6_timestamps_set_once_witness :
    (runOps [SessionOp.join envG (some "KEY1"),
             SessionOp.endSession { env0 with current_user := "doc@x" },
             SessionOp.rate env0 (some 5) none]
       { doc0 with started_at := some 500 }).started_at = some 500 ∧
    (runOps [SessionOp.join env0 none]
       { doc0 with ended_at := some 700 }).ended_at = some 700 ∧
    ((get_join_info_doc env0 doc0 none).2.status = "Active" ∧
     (get_join_info_doc env0 doc0 none).2.started_at = some 1000) ∧
    ((get_join_info_doc { env0 with now := 3000 } docS none).2.status = "Ended" ∧
     (get_join_info_doc { env0 with now := 3000 } docS none).2.ended_at = some 3000) ∧
    ((end_session_doc { env0 with current_user := "doc@x" } doc0).2.status = "Ended" ∧
     (end_session_doc { env0 with current_user := "doc@x" } doc0).2.ended_at = some 1000) ∧
    (end_session_doc { env0 with current_user := "doc@x" } doc0).2.started_at =
      doc0.started_at ∧
    ((submit_rating_doc env0 doc0 (some 5) none).2.1.started_at = doc0.started_at ∧
     (submit_rating_doc env0 doc0 (some 5) none).2.1.ended_at = doc0.ended_at) :=
  ⟨C6_timestamps_set_once.1 _ _ 500 rfl,
   C6_timestamps_set_once.2.1 _ _ 700 rfl,
   C6_timestamps_set_once.2.2.1 env0 doc0 none rfl (by decide),
   C6_timestamps_set_once.2.2.2.1 { env0 with now := 3000 } docS none rfl (by decide),
   C6_timestamps_set_once.2.2.2.2.1 { env0 with current_user := "doc@x" } doc0 rfl (by decide),
   C6_timestamps_set_once.2.2.2.2.2.1 { env0 with current_user := "doc@x" } doc0,
   C6_timestamps_set_once.2.2.2.2.2.2 env0 doc0 (some 5) none⟩

/-- C7: `end_session` denies guests and any caller that is not the
truthy linked identity of the session practitioner (including sessions
without a practitioner or without a linked identity); the linked
practitioner ends the session recording `ended_at` once, and a repeat
call on an Ended session succeeds without changing state. -/
theorem C7_end_session (env : Env) (doc : Session) :
    (env.current_user = "Guest" →
      end_session_doc env doc = (.error (.permission "Login required"), doc)) ∧
    (env.current_user ≠ "Guest" →
      (tstr (if tstr doc.practitioner = true then getPractitionerUser env doc.practitioner
        else none) = false ∨
       (if tstr doc.practitioner = true then getPractitionerUser env doc.practitioner
        else none) ≠ some env.current_user) →
      end_session_doc env doc = (.error (.permission "Not permitted"), doc)) ∧
    (env.current_user ≠ "Guest" →
      (if tstr doc.practitioner = true then getPractitionerUser env doc.practitioner
        else none) = some env.current_user →
      env.current_user ≠ "" →
      doc.status ≠ "Ended" →
      end_session_doc env doc =
        (.ok ⟨doc.name, "Ended"⟩,
         { doc with status := "Ended",
                    ended_at := if doc.ended_at.isSome then doc.ended_at else some env.now })) ∧
    (env.current_user ≠ "Guest" →
      (if tstr doc.practitioner = true then getPractitionerUser env doc.practitioner
        else none) = some env.current_user →
      env.current_user ≠ "" →
      doc.status = "Ended" →
      end_session_doc env doc = (.ok ⟨doc.name, "Ended"⟩, doc)) := by
  refine ⟨?_, ?_, ?_, ?_⟩
  · intro hg
    simp [end_session_doc, hg]
  · intro hg hbad
    rcases hbad with hb | hb <;> simp [end_session_doc, hg, hb]
  · intro hg hpu hne hstat
    have hpt : tstr doc.practitioner = true := by
      by_cases hh : tstr doc.practitioner = true
      · exact hh
      · rw [if_neg hh] at hpu; simp at hpu
    rw [if_pos hpt] at hpu
    simp [end_session_doc, hg, hpt, hpu, hstat] <;> simp [tstr, hne]
  · intro hg hpu hne hstat
    have hpt : tstr doc.practitioner = true := by
      by_cases hh : tstr doc.practitioner = true
      · exact hh
      · rw [if_neg hh] at hpu; simp at hpu
    rw [if_pos hpt] at hpu
    simp [end_session_doc, hg, hpt, hpu, hstat] <;> simp [tstr, hne]

/-- C7 witness: the five end-session outcomes at concrete inputs. -/
theorem C7_end_session_witness :
    end_session_doc envG doc0 = (.error (.permission "Login required"), doc0) ∧
    end_session_doc env0 doc0 = (.error (.permission "Not permitted"), doc0) ∧
    end_session_doc { env0 with current_user := "doc@x" }
      { doc0 with practitioner := none } =
      (.error (.permission "Not permitted"), { doc0 with practitioner := none }) ∧
    end_session_doc { env0 with current_user := "doc@x" } doc0 =
      (.ok ⟨"VCS-1", "Ended"⟩,
       { doc0 with status := "Ended", ended_at := some 1000 }) ∧
    end_session_doc { env0 with current_user := "doc@x" }
      { doc0 with status := "Ended", ended_at := some 900 } =
      (.ok ⟨"VCS-1", "Ended"⟩, { doc0 with status := "Ended", ended_at := some 900 }) :=
  ⟨(C7_end_session envG doc0).1 rfl,
   (C7_end_session env0 doc0).2.1 (by decide) (Or.inr (by decide)),
   (C7_end_session { env0 with current_user := "doc@x" }
     { doc0 with practitioner := none }).2.1 (by decide) (Or.inl (by decide)),
   ((C7_end_session { env0 with current_user := "doc@x" } doc0).2.2.1 (by decide)
     (by decide) (by decide) (by decide)).trans (by decide),
   (C7_end_session { env0 with current_user := "doc@x" }
     { doc0 with status := "Ended", ended_at := some 900 }).2.2.2 (by decide)
     (by decide) (by decide) rfl⟩

/-- C8 (amended): a usable URL from the remote lookup is used as is;
when the lookup yields no usable URL for any reason (404 or any other
remote failure, both of which raise in `daily_get_room` and are caught)
a non-Ended session gets a replacement room whose binding is persisted,
a failure of the repair itself is fatal, an Ended session fails without
allocating a room, and a repair failure aborts `get_join_info`. -/
theorem C8_room_self_healing (env : Env) (doc : Session) :
    (∀ n u, env.get_room (doc.daily_room_name.getD "") = .found n (some u) → u ≠ "" →
      ensureRoom env doc = (.ok (some u), doc, false)) ∧
    (tstr (match env.get_room (doc.daily_room_name.getD "") with
        | .found _ u => u | _ => none) = false →
      doc.status ≠ "Ended" →
      ∀ nn uu, env.create_room (roomName env "airtook") = .ok nn uu →
      ensureRoom env doc =
        (.ok uu, { doc with daily_room_name := some (orStr nn (roomName env "airtook")),
                            daily_room_url := uu }, true)) ∧
    (tstr (match env.get_room (doc.daily_room_name.getD "") with
        | .found _ u => u | _ => none) = false →
      doc.status ≠ "Ended" →
      ∀ m, env.create_room (roomName env "airtook") = .serverError m →
      ensureRoom env doc =
        (.error (.validation ("Daily create room failed: " ++ m)), doc, false)) ∧
    (tstr (match env.get_room (doc.daily_room_name.getD "") with
        | .found _ u => u | _ => none) = false →
      doc.status = "Ended" →
      ensureRoom env doc =
        (.error (.validation "This consultation session has ended."), doc, false)) ∧
    (env.get_room (doc.daily_room_name.getD "") = .notFound →
      (match env.get_room (doc.daily_room_name.getD "") with
        | .found _ u => u | _ => none) = none ∧
      daily_get_room env (doc.daily_room_name.getD "") =
        .error (.validation "Daily get room failed: 404")) ∧
    (∀ m, env.get_room (doc.daily_room_name.getD "") = .serverError m →
      (match env.get_room (doc.daily_room_name.getD "") with
        | .found _ u => u | _ => none) = none ∧
      daily_get_room env (doc.daily_room_name.getD "") =
        .error (.validation ("Daily get room failed: " ++ m))) ∧
    (∀ k rc d d2 e d3 b, tstr doc.daily_room_name = true → tstr doc.patient_user = true →
      resolveCaller env doc k = (.ok rc, d) → accessGate env d = (.ok (), d2) →
      ensureRoom env d2 = (.error e, d3, b) →
      get_join_info_doc env doc k = (.error e, d3)) := by
  refine ⟨?_, ?_, ?_, ?_, ?_, ?_, ?_⟩
  · intro n u hget hu
    simp [ensureRoom, hget, tstr, hu]
  · intro hmiss hstat nn uu hcreate
    simp [ensureRoom, hmiss, hstat, daily_create_room, hcreate]
  · intro hmiss hstat m hcreate
    simp [ensureRoom, hmiss, hstat, daily_create_room, hcreate]
  · intro hmiss hstat
    simp [ensureRoom, hmiss, hstat]
  · intro hget
    exact ⟨by simp [hget], by simp [daily_get_room, hget]⟩
  · intro m hget
    exact ⟨by simp [hget], by simp [daily_get_room, hget]⟩
  · intro k rc d d2 e d3 b hroom huser hrc hag her
    have h1 : (!tstr doc.daily_room_name) = false := by simp [hroom]
    have h2 : (!tstr doc.patient_user) = false := by simp [huser]
    simp [get_join_info_doc, h1, h2, hrc, hag, her]

/-- C8 counterexample to the claim as stated: a remote lookup failure
that is NOT room-not-found (an HTTP 500) is also treated as recoverable,
with a replacement room transparently allocated. -/
theorem C8_counterexample :
    envX.get_room "airtook-r1" = .serverError "500 internal" ∧
    envX.get_room "airtook-r1" ≠ .notFound ∧
    doc0.status ≠ "Ended" ∧
    ensureRoom envX doc0 =
      (.ok (some "https://d/airtook-r2"),
       { doc0 with daily_room_name := some "airtook-r2",
                   daily_room_url := some "https://d/airtook-r2" }, true) :=
  ⟨rfl, by decide, by decide, by decide⟩

/-- C8 witness: the healing outcomes at concrete inputs. -/
theorem C8_room_self_healing_witness :
    ensureRoom env0 doc0 = (.ok (some "https://d/r1"), doc0, false) ∧
    ensureRoom { env0 with get_room := fun _ => .notFound } doc0 =
      (.ok (some "https://d/airtook-r2"),
       { doc0 with daily_room_name := some "airtook-r2",
                   daily_room_url := some "https://d/airtook-r2" }, true) ∧
    ensureRoom envX doc0 =
      (.ok (some "https://d/airtook-r2"),
       { doc0 with daily_room_name := some "airtook-r2",
                   daily_room_url := some "https://d/airtook-r2" }, true) ∧
    ensureRoom { envX with create_room := fun _ => .serverError "boom" } doc0 =
      (.error (.validation ("Daily create room failed: " ++ "boom")), doc0, false) ∧
    ensureRoom envX { doc0 with status := "Ended" } =
      (.error (.validation "This consultation session has ended."),
       { doc0 with status := "Ended" }, false) ∧
    daily_get_room { env0 with get_room := fun _ => .notFound } "airtook-r1" =
      .error (.validation "Daily get room failed: 404") ∧
    daily_get_room envX "airtook-r1" =
      .error (.validation ("Daily get room failed: " ++ "500 internal")) ∧
    get_join_info_doc { envX with create_room := fun _ => .serverError "boom" } doc0 none =
      (.error (.validation ("Daily create room failed: " ++ "boom")), doc0) :=
  ⟨(C8_room_self_healing env0 doc0).1 (some "airtook-r1") "https://d/r1" rfl (by decide),
   ((C8_room_self_healing { env0 with get_room := fun _ => .notFound } doc0).2.1
     (by decide) (by decide) (some "airtook-r2") (some "https://d/airtook-r2") rfl).trans
     (by decide),
   ((C8_room_self_healing envX doc0).2.1 (by decide) (by decide)
     (some "airtook-r2") (some "https://d/airtook-r2") rfl).trans (by decide),
   (C8_room_self_healing { envX with create_room := fun _ => .serverError "boom" } doc0).2.2.1
     (by decide) (by decide) "boom" rfl,
   (C8_room_self_healing envX { doc0 with status := "Ended" }).2.2.2.1 (by decide) rfl,
   ((C8_room_self_healing { env0 with get_room := fun _ => .notFound } doc0).2.2.2.2.1
     rfl).2,
   ((C8_room_self_healing envX doc0).2.2.2.2.2.1 "500 internal" rfl).2,
   (C8_room_self_healing { envX with create_room := fun _ => .serverError "boom" } doc0).2.2.2.2.2.2
     none ⟨"patient", "alice@x", "alice@x"⟩ doc0 doc0 _ doc0 false (by decide) (by decide)
     (by decide) (by decide) (by decide)⟩

/-- C9 (amended): `submit_rating` validates the rating and the caller;
any caller matching the session patient_user takes the forwarding path
when a practitioner is linked, with a forwarding failure converted into
a soft warning; with no linked practitioner nothing is forwarded; only a
caller matching the practitioner identity but not patient_user has the
rating and comment stored locally and nothing forwarded. -/
theorem C9_submit_rating (env : Env) (doc : Session) (r0 : Option Int) (c : Option String)
    (hg : env.current_user ≠ "Guest") :
    (r0 = none → submit_rating_doc env doc r0 c =
      (.error (.validation "Rating must be an integer between 1 and 5"), doc, none)) ∧
    (∀ r : Int, r0 = some r → (r < 1 ∨ 5 < r) →
      submit_rating_doc env doc r0 c =
        (.error (.validation "Rating must be between 1 and 5"), doc, none)) ∧
    (∀ r : Int, ∀ pu : Option String, r0 = some r → 1 ≤ r → r ≤ 5 →
      (if tstr doc.practitioner = true then getPractitionerUser env doc.practitioner
        else none) = pu →
      (tstr pu && (pu == some env.current_user)) = false →
      (tstr doc.patient_user && (doc.patient_user == some env.current_user)) = false →
      submit_rating_doc env doc r0 c =
        (.error (.permission "Not permitted to rate this session"), doc, none)) ∧
    (∀ r : Int, ∀ pu : Option String, r0 = some r → 1 ≤ r → r ≤ 5 →
      (if tstr doc.practitioner = true then getPractitionerUser env doc.practitioner
        else none) = pu →
      (tstr doc.patient_user && (doc.patient_user == some env.current_user)) = true →
      tstr doc.practitioner = true →
      env.forward_result (doc.practitioner.getD "") r env.current_user doc.name
        (c.getD "") = none →
      submit_rating_doc env doc r0 c =
        (.ok ⟨doc.name, r,
          (if (tstr pu && (pu == some env.current_user)) = true then "practitioner"
           else "patient"), none⟩, doc,
         some ⟨doc.practitioner.getD "", r, env.current_user, doc.name, c.getD ""⟩)) ∧
    (∀ r : Int, ∀ e : String, r0 = some r → 1 ≤ r → r ≤ 5 →
      (tstr doc.patient_user && (doc.patient_user == some env.current_user)) = true →
      tstr doc.practitioner = true →
      env.forward_result (doc.practitioner.getD "") r env.current_user doc.name
        (c.getD "") = some e →
      submit_rating_doc env doc r0 c =
        (.ok ⟨doc.name, r, "patient", some e⟩, doc,
         some ⟨doc.practitioner.getD "", r, env.current_user, doc.name, c.getD ""⟩)) ∧
    (∀ r : Int, ∀ pu : Option String, r0 = some r → 1 ≤ r → r ≤ 5 →
      (if tstr doc.practitioner = true then getPractitionerUser env doc.practitioner
        else none) = pu →
      (tstr doc.patient_user && (doc.patient_user == some env.current_user)) = true →
      tstr doc.practitioner = false →
      submit_rating_doc env doc r0 c =
        (.ok ⟨doc.name, r,
          (if (tstr pu && (pu == some env.current_user)) = true then "practitioner"
           else "patient"), none⟩, doc, none)) ∧
    (∀ r : Int, ∀ pu : Option String, r0 = some r → 1 ≤ r → r ≤ 5 →
      (if tstr doc.practitioner = true then getPractitionerUser env doc.practitioner
        else none) = pu →
      (tstr pu && (pu == some env.current_user)) = true →
      (tstr doc.patient_user && (doc.patient_user == some env.current_user)) = false →
      submit_rating_doc env doc r0 c =
        (.ok ⟨doc.name, r, "practitioner", none⟩,
         { doc with practitioner_rating := some r,
                    practitioner_rating_comment :=
                      if tstr c = true then c else doc.practitioner_rating_comment },
         none)) := by
  refine ⟨?_, ?_, ?_, ?_, ?_, ?_, ?_⟩
  · intro hr
    simp [submit_rating_doc, hg, hr]
  · intro r hr hb
    have hb2 : (r < 1 || 5 < r) = true := by
      rcases hb with hb | hb <;> simp [hb]
    simp [submit_rating_doc, hg, hr, hb2]
  · intro r pu hr h1 h5 hpu hnp hnpat
    have hb2 : (r < 1 || 5 < r) = false := by simp; omega
    simp [submit_rating_doc, hg, hr, hb2, hpu, hnp, hnpat]
  · intro r pu hr h1 h5 hpu hpat hprac hfwd
    have hb2 : (r < 1 || 5 < r) = false := by simp; omega
    rw [if_pos hprac] at hpu
    simp [submit_rating_doc, hg, hr, hb2, hpu, hpat, hprac, hfwd]
  · intro r e hr h1 h5 hpat hprac hfwd
    have hb2 : (r < 1 || 5 < r) = false := by simp; omega
    simp [submit_rating_doc, hg, hr, hb2, hpat, hprac, hfwd]
  · intro r pu hr h1 h5 hpu hpat hprac
    have hb2 : (r < 1 || 5 < r) = false := by simp; omega
    rw [if_neg (by simp [hprac])] at hpu
    subst hpu
    simp [submit_rating_doc, hg, hr, hb2, hpat, hprac] <;> simp [tstr]
  · intro r pu hr h1 h5 hpu hprac hnpat
    have hb2 : (r < 1 || 5 < r) = false := by simp; omega
    simp [submit_rating_doc, hg, hr, hb2, hpu, hprac, hnpat]

/-- C9 counterexample to the claim as stated: when the caller is at
once the practitioner identity and the session patient_user, the
response labels the rating practitioner-submitted yet it is forwarded
and not stored locally; and a patient rating on a session with no
practitioner is not forwarded at all. -/
theorem C9_counterexample :
    getPractitionerUser envD docB.practitioner = some envD.current_user ∧
    docB.patient_user = some envD.current_user ∧
    (submit_rating_doc envD docB (some 5) none).1 =
      .ok ⟨"VCS-1", 5, "practitioner", none⟩ ∧
    (submit_rating_doc envD docB (some 5) none).2.2 =
      some ⟨"HP-1", 5, "doc@x", "VCS-1", ""⟩ ∧
    (submit_rating_doc envD docB (some 5) none).2.1.practitioner_rating = none ∧
    (submit_rating_doc env0 { doc0 with practitioner := none } (some 4) none).1 =
      .ok ⟨"VCS-1", 4, "patient", none⟩ ∧
    (submit_rating_doc env0 { doc0 with practitioner := none } (some 4) none).2.2 = none :=
  ⟨by decide, rfl, by decide, by decide, by decide, by decide, by decide⟩

/-- C9 witness: the seven rating outcomes at concrete inputs. -/
theorem C9_submit_rating_witness :
    submit_rating_doc env0 doc0 none none =
      (.error (.validation "Rating must be an integer between 1 and 5"), doc0, none) ∧
    submit_rating_doc env0 doc0 (some 7) none =
      (.error (.validation "Rating must be between 1 and 5"), doc0, none) ∧
    submit_rating_doc { env0 with current_user := "bob@x" } doc0 (some 3) none =
      (.error (.permission "Not permitted to rate this session"), doc0, none) ∧
    submit_rating_doc env0 doc0 (some 3) (some "ok") =
      (.ok ⟨"VCS-1", 3, "patient", none⟩, doc0,
       some ⟨"HP-1", 3, "alice@x", "VCS-1", "ok"⟩) ∧
    submit_rating_doc { env0 with forward_result := fun _ _ _ _ _ => some "core down" }
        doc0 (some 3) none =
      (.ok ⟨"VCS-1", 3, "patient", some "core down"⟩, doc0,
       some ⟨"HP-1", 3, "alice@x", "VCS-1", ""⟩) ∧
    submit_rating_doc env0 { doc0 with practitioner := none } (some 4) none =
      (.ok ⟨"VCS-1", 4, "patient", none⟩, { doc0 with practitioner := none }, none) ∧
    submit_rating_doc envD doc0 (some 2) (some "notes") =
      (.ok ⟨"VCS-1", 2, "practitioner", none⟩,
       { doc0 with practitioner_rating := some 2,
                   practitioner_rating_comment := some "notes" }, none) :=
  ⟨(C9_submit_rating env0 doc0 none none (by decide)).1 rfl,
   (C9_submit_rating env0 doc0 (some 7) none (by decide)).2.1 7 rfl (Or.inr (by decide)),
   (C9_submit_rating { env0 with current_user := "bob@x" } doc0 (some 3) none
     (by decide)).2.2.1 3 (some "doc@x") rfl (by decide) (by decide) (by decide)
     (by decide) (by decide),
   ((C9_submit_rating env0 doc0 (some 3) (some "ok") (by decide)).2.2.2.1 3 (some "doc@x")
     rfl (by decide) (by decide) (by decide) (by decide) (by decide) rfl).trans (by decide),
   (C9_submit_rating { env0 with forward_result := fun _ _ _ _ _ => some "core down" }
     doc0 (some 3) none (by decide)).2.2.2.2.1 3 "core down" rfl (by decide) (by decide)
     (by decide) (by decide) rfl,
   ((C9_submit_rating env0 { doc0 with practitioner := none } (some 4) none
     (by decide)).2.2.2.2.2.1 4 none rfl (by decide) (by decide) (by decide) (by decide)
     (by decide)).trans (by decide),
   (C9_submit_rating envD doc0 (some 2) (some "notes") (by decide)).2.2.2.2.2.2 2
     (some "doc@x") rfl (by decide) (by decide) (by decide) (by decide) (by decide)⟩

/-- C10: a session whose appointment lacks a start date or time gets
the quick-consult window: no early bound applies and, while `ended_at`
is unset, no close bound applies, so the access gate never denies it;
`ended_at` stays unset until the session is Ended across any sequence of
API calls. -/
theorem C10_incomplete_appointment (env : Env) (doc : Session) (pa : String) (appt : Appt)
    (hpa : doc.patient_appointment = some pa) (hne : pa ≠ "")
    (happt : env.appts pa = some appt)
    (hmiss : tstr appt.appointment_date = false ∨ tstr appt.appointment_time = false) :
    (doc.ended_at = none →
      computeAccessWindow env doc = .ok (some (env.now - 10000), none, "quick") ∧
      accessGate env doc = (.ok (), doc)) ∧
    (∀ e, doc.ended_at = some e →
      computeAccessWindow env doc = .ok (some (e - 10000), some (e + 60), "quick")) ∧
    (∀ ops (d0 : Session), (d0.ended_at ≠ none → d0.status = "Ended") →
      ((runOps ops d0).ended_at ≠ none → (runOps ops d0).status = "Ended")) := by
  have hpat : tstr doc.patient_appointment = true := by simp [hpa, tstr, hne]
  have hdt : (tstr appt.appointment_date && tstr appt.appointment_time) = false := by
    rcases hmiss with hm | hm <;> simp [hm]
  have hga : getApptDatetimeAndDuration env (doc.patient_appointment.getD "") =
      .ok (none, match appt.duration with | none => 30 | some d => if d = 0 then 30 else d) := by
    simp only [hpa, Option.getD_some, getApptDatetimeAndDuration, happt]
    rw [if_neg (by simp [hdt])]
  refine ⟨?_, ?_, ?_⟩
  · intro hend
    have hw : computeAccessWindow env doc =
        .ok (some (env.now - 10000), none, "quick") := by
      simp [computeAccessWindow, hpat, hga, quickWindow, hend]
    exact ⟨hw, by simp [accessGate, hw, hend]⟩
  · intro e hend
    simp [computeAccessWindow, hpat, hga, quickWindow, hend]
  · intro ops
    induction ops with
    | nil => intro d0 hc hn; exact hc hn
    | cons op ops ih =>
      intro d0 hc
      refine ih (applyOp d0 op) ?_
      cases op with
      | join env2 k2 => exact (joinDoc_lifecycle env2 d0 k2).2.2.2.2 hc
      | endSession env2 => exact (endDoc_lifecycle env2 d0).2.2.2 hc
      | rate env2 r2 c2 =>
        intro hx
        have h1 : d0.ended_at ≠ none := by
          rw [← (rateDoc_fields env2 d0 r2 c2).2.1]; exact hx
        rw [show (applyOp d0 (SessionOp.rate env2 r2 c2)) =
          (submit_rating_doc env2 d0 r2 c2).2.1 from rfl,
          (rateDoc_fields env2 d0 r2 c2).2.2]
        exact hc h1

/-- C10 witness: the open-ended window and passing gate at a concrete
incomplete appointment, the closed window once ended, and the
Ended-consistency instance. -/
theorem C10_incomplete_appointment_witness :
    (computeAccessWindow env0 docQ = .ok (some (-9000), none, "quick") ∧
     accessGate env0 docQ = (.ok (), docQ)) ∧
    computeAccessWindow env0 { docQ with status := "Ended", ended_at := some 800 } =
      .ok (some (-9200), some 860, "quick") ∧
    ((runOps [SessionOp.join { env0 with now := 3000 } none] docS).ended_at ≠ none →
      (runOps [SessionOp.join { env0 with now := 3000 } none] docS).status = "Ended") := by
  have c := C10_incomplete_appointment env0 docQ "APPT-3" apptNoTime rfl (by decide)
    (by decide) (Or.inr (by decide))
  have cE := C10_incomplete_appointment env0
    { docQ with status := "Ended", ended_at := some 800 } "APPT-3" apptNoTime rfl
    (by decide) (by decide) (Or.inr (by decide))
  refine ⟨?_, ?_, ?_⟩
  · have h := c.1 rfl
    exact ⟨h.1.trans (by decide), h.2⟩
  · exact (cE.2.1 800 rfl).trans (by decide)
  · exact c.2.2 [SessionOp.join { env0 with now := 3000 } none] docS (by decide)

end AirtookVideo
